import Mathlib

/-!
# go-swan-lib: transport, session operations and token acquisition

A shallow embedding of `client/restful.go`, `client/swan.go` and `utils.ReadFile`.

* Go functions become Lean functions with the same names.
* The network, the file system, the multipart writer and the JSON library are
  collaborators outside these files; they are gathered in `Env` and every theorem
  quantifies over them.
* A Go function that can end in a run-time panic returns an `Outcome`.
* Every call of the transport and every request handed to `client.Do` is recorded
  in `Net`, which is threaded through the operations.
-/

set_option autoImplicit false
set_option maxRecDepth 100000

namespace SwanLib

/-! ## Go values -/

/-- A Go error value: its message and the messages of the errors reachable from it
through errors.Unwrap (outermost first). -/
structure GoError where
  msg : String
  causes : List String
deriving DecidableEq, Repr

/-- The error built by fmt.Errorf with a format that has no %w verb, or by errors.New:
a fresh error that wraps nothing. -/
def fmtErrorf (msg : String) : GoError := ⟨msg, []⟩

/-- The result of running Go code that may end in a run-time panic. -/
inductive Outcome (α : Type) where
  | ret (a : α)
  | panic (msg : String)
deriving DecidableEq, Repr

/-- A Go slice: none is the nil slice. -/
abbrev Slice (α : Type) := Option (List α)

/-- Go's len on a slice. -/
def Slice.len {α : Type} : Slice α → Nat
  | none => 0
  | some xs => xs.length

/-- The elements a range loop over the slice visits, in order. -/
def Slice.elems {α : Type} : Slice α → List α
  | none => []
  | some xs => xs

/-- A value of type interface{} as produced by encoding/json. -/
inductive GoValue where
  | nil
  | bool (b : Bool)
  | float64 (digits : String)
  | string (s : String)
  | slice (items : List GoValue)
  | map (entries : List (String × GoValue))

/-- Indexing a map[string]interface{}: a missing key yields the nil interface. -/
def mapIndex (m : List (String × GoValue)) (key : String) : GoValue :=
  (m.lookup key).getD GoValue.nil

/-- The type assertion x.(string) in its one-result form: it panics unless the dynamic
type of x is string. -/
def assertString : GoValue → Outcome String
  | GoValue.string s => Outcome.ret s
  | GoValue.nil => Outcome.panic "interface conversion: interface \x7b\x7d is nil, not string"
  | _ => Outcome.panic "interface conversion: interface \x7b\x7d is not string"

/-! ## Go standard library: strings, strconv -/

/-- Go's len on a string: the number of bytes. -/
def goLen (s : String) : Nat := s.utf8ByteSize

/-- Whether sub occurs in cs starting at its head. -/
def hasPrefixChars : List Char → List Char → Bool
  | _, [] => true
  | [], _ :: _ => false
  | c :: cs, p :: ps => c == p && hasPrefixChars cs ps

/-- Whether sub occurs somewhere in cs. -/
def containsChars : List Char → List Char → Bool
  | [], sub => sub.isEmpty
  | c :: cs, sub => hasPrefixChars (c :: cs) sub || containsChars cs sub

/-- strings.Contains. -/
def stringsContains (s substr : String) : Bool := containsChars s.data substr.data

/-- strings.Trim: s without the leading and trailing characters that occur in cutset. -/
def stringsTrim (s cutset : String) : String :=
  String.mk (((s.data.dropWhile (fun c => cutset.data.contains c)).reverse.dropWhile
    (fun c => cutset.data.contains c)).reverse)

/-- unicode.ToUpper on one rune: below 128 the letters a (97) to z (122) lose 32 and the
rest stays; any other rune is mapped by the Unicode case tables, which are the argument. -/
def unicodeToUpper (table : Char → Char) (c : Char) : Char :=
  let r := c.toNat
  if r < 128 then (if 97 ≤ r ∧ r ≤ 122 then Char.ofNat (r - 32) else c) else table c

/-- strings.ToUpper. -/
def stringsToUpper (table : Char → Char) (s : String) : String :=
  String.mk (s.data.map (unicodeToUpper table))

/-- Whether two strings are equal up to the case of their ASCII letters. -/
def equalUpToLetterCase (s t : String) : Bool :=
  s.data.map Char.toLower == t.data.map Char.toLower

/-- strconv.Itoa. -/
def strconvItoa (i : Int) : String := toString i

/-- strconv.FormatBool. -/
def strconvFormatBool (b : Bool) : String := if b then "true" else "false"

/-! ## HTTP requests and responses -/

/-- The body of an outgoing request. -/
inductive Body where
  | text (content : String)
  | multipart (boundary fieldname filename : String) (fileContent : List Nat)
      (fields : List (String × String))
deriving DecidableEq, Repr

/-- The parts of http.Request the client sets. -/
structure Request where
  Method : String
  URL : String
  Header : List (String × String)
  Body : Body
deriving DecidableEq, Repr

/-- Header.Set: the key then holds exactly this value. -/
def Request.HeaderSet (r : Request) (key value : String) : Request :=
  { r with Header := (key, value) :: r.Header.filter (fun kv => kv.1 != key) }

/-- Header.Get, none when the key is absent. -/
def Request.HeaderGet (r : Request) (key : String) : Option String :=
  r.Header.lookup key

/-- The parts of http.Response the client reads; Body is what ioutil.ReadAll yields. -/
structure Response where
  Status : String
  StatusCode : Int
  Body : Except GoError String

/-- Go's http.StatusOK. -/
def StatusOK : Int := 200

def HTTP_CONTENT_TYPE_FORM : String := "application/x-www-form-urlencoded"
def HTTP_CONTENT_TYPE_JSON : String := "application/json; charset=utf-8"

structure TokenAccessInfo where
  ApiKey : String
  AccessToken : String
deriving DecidableEq, Repr

/-- The Go values the client passes as params of a non-reader kind. -/
inductive Payload where
  | str (s : String)
  | tokenAccessInfo (info : TokenAccessInfo)
  | other (tag : String)
deriving DecidableEq, Repr

/-- The params argument of httpRequest: an io.Reader or any other value. -/
inductive Params where
  | reader (content : String)
  | value (v : Payload)
deriving DecidableEq, Repr

/-- What os.Stat reports about a path. -/
structure FileInfo where
  Name : String
  IsRegular : Bool
deriving DecidableEq, Repr

/-- What a transport call is given besides method, URL and token: the params of
httpRequest, or the field map, file field name and file path of HttpRequestFile. -/
inductive CallArgs where
  | params (p : Params)
  | file (paramTexts : List (String × String)) (paramFilename paramFilepath : String)
deriving DecidableEq, Repr

/-- One call of the transport (httpRequest or HttpRequestFile). -/
structure Call where
  method : String
  uri : String
  tokenString : String
  args : CallArgs
deriving DecidableEq, Repr

/-- The observable history: transport calls made and requests handed to client.Do,
oldest first. -/
structure Net where
  invoked : List Call
  sent : List Request
deriving DecidableEq, Repr

def Net.invoke (net : Net) (c : Call) : Net := { net with invoked := net.invoked ++ [c] }

def Net.send (net : Net) (r : Request) : Net := { net with sent := net.sent ++ [r] }

def Net.empty : Net := ⟨[], []⟩

/-! ## Data model -/

/-- The decimal.Decimal of a task price, by what its String method renders. -/
structure Decimal where
  text : String
deriving DecidableEq, Repr

/-- Modelled from the spec: model.Task, whose declaration is not among these files. It has
the fields that client/swan.go reads, which are those of the spec's data model (name,
dataset label, description, visibility flag, type, optional miner id, retrieval flag, bid
mode, max price, expiration, status, UUID). Pointer fields are options, none being the nil
pointer; the Go field Type is TaskType here. -/
structure Task where
  TaskName : String
  CuratedDataset : String
  Description : String
  IsPublic : Option Int
  TaskType : Option String
  MinerFid : Option String
  FastRetrievalBool : Bool
  BidMode : Option Int
  MaxPrice : Option Decimal
  ExpireDays : Option Int
  Status : String
  Uuid : String
deriving DecidableEq, Repr

/-- Modelled from the spec: model.OfflineDeal, whose declaration is not among these files;
a deal is identified by an integer id and has a status string. The client code passes
deals on without reading a field. -/
structure OfflineDeal where
  Id : Int
  Status : String
deriving DecidableEq, Repr

/-- Modelled from the spec: model.Miner, whose declaration is not among these files; a
miner is known by its id. The client code passes it on without reading a field. -/
structure Miner where
  MinerFid : String
deriving DecidableEq, Repr

structure SwanClient where
  ApiUrl : String
  JwtToken : String
deriving DecidableEq, Repr

structure GetOfflineDealData where
  Deal : Slice OfflineDeal
deriving DecidableEq, Repr

structure GetOfflineDealResponse where
  Data : GetOfflineDealData
  Status : String
deriving DecidableEq, Repr

structure UpdateOfflineDealData where
  Deal : OfflineDeal
  Message : String
deriving DecidableEq, Repr

structure UpdateOfflineDealResponse where
  Data : UpdateOfflineDealData
  Status : String
deriving DecidableEq, Repr

structure SwanCreateTaskResponseData where
  Filename : String
  Uuid : String
deriving DecidableEq, Repr

structure SwanCreateTaskResponse where
  Data : SwanCreateTaskResponseData
  Status : String
  Message : String
deriving DecidableEq, Repr

structure GetTaskResultData where
  Task : Slice Task
  TotalItems : Int
  TotalTaskCount : Int
deriving DecidableEq, Repr

/-- Declared in swan.go with Data of type GetTaskResultData. -/
structure GetTaskByUuidResult where
  Data : GetTaskResultData
  Status : String
deriving DecidableEq, Repr

structure GetTaskResult where
  Data : GetTaskResultData
  Status : String
deriving DecidableEq, Repr

structure GetOfflineDealsByTaskUuidResultData where
  AverageBid : String
  BidCount : Int
  DealCompleteRate : String
  Deal : Slice OfflineDeal
  Miner : Miner
  Task : Task
deriving DecidableEq, Repr

structure GetOfflineDealsByTaskUuidResult where
  Data : GetOfflineDealsByTaskUuidResultData
  Status : String
deriving DecidableEq, Repr

def GET_OFFLINEDEAL_LIMIT_DEFAULT : Int := 50
def RESPONSE_STATUS_SUCCESS : String := "SUCCESS"
def SWAN_API_STATUS_SUCCESS : String := "success"
def TASK_STATUS_ASSIGNED : String := "Assigned"
/-- Modelled from the spec: constants.EMPTY_STRING, which swan.go refers to and
constants.go here does not declare; a caller without a token passes the empty string. -/
def EMPTY_STRING : String := ""

/-! ## Collaborators outside client/ and utils/file.go -/

/-- Everything the client code calls that is not defined in these files: Go's net/http,
os, mime/multipart, encoding/json and unicode packages, and the JSON helpers of package
utils. Theorems hold for every Env. -/
structure Env where
  /-- The json.Marshal result for a payload. -/
  jsonMarshal : Payload → Except GoError String
  /-- The error of http.NewRequest for a method and URL, none when it builds a request. -/
  newRequestErr : String → String → Option GoError
  /-- The client.Do result for a request, given how many requests were sent before it. -/
  clientDo : Nat → Request → Except GoError Response
  /-- The os.Stat result for a path. -/
  osStat : String → Except GoError FileInfo
  /-- The ioutil.ReadFile result for a path. -/
  ioutilReadFile : String → Except GoError (List Nat)
  /-- The boundary the multipart writer picks. -/
  boundary : String
  /-- The error of CreateFormFile for a field name and file name, if any. -/
  createFormFileErr : String → String → Option GoError
  /-- The error of WriteField for a key and value, if any. -/
  writeFieldErr : String → String → Option GoError
  /-- The helper utils.GetFieldStrFromJson. -/
  GetFieldStrFromJson : String → String → String
  /-- The helper utils.GetFieldMapFromJson; none is the nil map. -/
  GetFieldMapFromJson : String → String → Option (List (String × GoValue))
  /-- Decoding of a non-empty input by json.Unmarshal, one decoder per target type. -/
  decodeGetOfflineDealResponse : String → Except GoError GetOfflineDealResponse
  decodeUpdateOfflineDealResponse : String → Except GoError UpdateOfflineDealResponse
  decodeSwanCreateTaskResponse : String → Except GoError SwanCreateTaskResponse
  decodeGetTaskByUuidResult : String → Except GoError GetTaskByUuidResult
  decodeGetTaskResult : String → Except GoError GetTaskResult
  decodeGetOfflineDealsByTaskUuidResult : String → Except GoError GetOfflineDealsByTaskUuidResult
  /-- The Unicode upper-case mapping for runes beyond ASCII. -/
  unicodeUpper : Char → Char

/-- Go's json.Unmarshal: the input is first checked for validity, and the empty input is
rejected there with "unexpected end of JSON input"; otherwise the decoder runs. -/
def jsonUnmarshal {α : Type} (dec : String → Except GoError α) (data : String) :
    Except GoError α :=
  if goLen data == 0 then Except.error (fmtErrorf "unexpected end of JSON input") else dec data

/-! ## utils/file.go -/

/-- The function utils.ReadFile: the base name and the bytes of a regular file. -/
def ReadFile (env : Env) (filePath : String) : Except GoError (String × List Nat) :=
  match env.osStat filePath with
  | Except.error err => Except.error err
  | Except.ok sourceFileStat =>
    if !sourceFileStat.IsRegular then
      Except.error (fmtErrorf (filePath ++ " is not a regular file"))
    else
      match env.ioutilReadFile filePath with
      | Except.error err => Except.error err
      | Except.ok data => Except.ok (sourceFileStat.Name, data)

/-! ## client/restful.go -/

/-- Lines 54-75 of httpRequest: the type switch on params that builds the request and
sets its content type. -/
def httpRequestBuild (env : Env) (httpMethod uri : String) (params : Params) :
    Except GoError Request :=
  match params with
  | Params.reader content =>
    match env.newRequestErr httpMethod uri with
    | some err => Except.error err
    | none =>
      Except.ok ((Request.mk httpMethod uri [] (Body.text content)).HeaderSet
        "Content-Type" HTTP_CONTENT_TYPE_FORM)
  | Params.value v =>
    match env.jsonMarshal v with
    | Except.error errJson => Except.error errJson
    | Except.ok jsonReq =>
      match env.newRequestErr httpMethod uri with
      | some err => Except.error err
      | none =>
        Except.ok ((Request.mk httpMethod uri [] (Body.text jsonReq)).HeaderSet
          "Content-Type" HTTP_CONTENT_TYPE_JSON)

/-- Lines 77-79 and 156-158: the bearer header is set when the token, trimmed of
spaces, is not empty. -/
def setAuthorization (request : Request) (tokenString : String) : Request :=
  if goLen (stringsTrim tokenString " ") > 0 then
    request.HeaderSet "Authorization" ("Bearer " ++ tokenString)
  else request

def httpRequest (env : Env) (net : Net) (httpMethod uri tokenString : String)
    (params : Params) : String × Net :=
  let net := net.invoke ⟨httpMethod, uri, tokenString, CallArgs.params params⟩
  match httpRequestBuild env httpMethod uri params with
  | Except.error _ => ("", net)
  | Except.ok request =>
    let request := setAuthorization request tokenString
    match env.clientDo net.sent.length request with
    | Except.error _ => ("", net.send request)
    | Except.ok response =>
      if response.StatusCode != StatusOK then ("", net.send request)
      else
        match response.Body with
        | Except.error _ => ("", net.send request)
        | Except.ok responseBody => (responseBody, net.send request)

def HttpPostNoToken (env : Env) (net : Net) (uri : String) (params : Params) : String × Net :=
  httpRequest env net "POST" uri "" params

def HttpPost (env : Env) (net : Net) (uri tokenString : String) (params : Params) :
    String × Net :=
  httpRequest env net "POST" uri tokenString params

def HttpGetNoToken (env : Env) (net : Net) (uri : String) (params : Params) : String × Net :=
  httpRequest env net "GET" uri "" params

def HttpGet (env : Env) (net : Net) (uri tokenString : String) (params : Params) :
    String × Net :=
  httpRequest env net "GET" uri tokenString params

def HttpPut (env : Env) (net : Net) (uri tokenString : String) (params : Params) :
    String × Net :=
  httpRequest env net "PUT" uri tokenString params

def HttpDelete (env : Env) (net : Net) (uri tokenString : String) (params : Params) :
    String × Net :=
  httpRequest env net "DELETE" uri tokenString params

/-- The loop of HttpRequestFile over paramTexts (lines 139-145): the first WriteField
error ends it. The list is the map in the order the range visits it. -/
def writeFields (env : Env) : List (String × String) → Option GoError
  | [] => none
  | (key, val) :: rest =>
    match env.writeFieldErr key val with
    | some err => some err
    | none => writeFields env rest

/-- The multipart writer's FormDataContentType. -/
def FormDataContentType (boundary : String) : String :=
  "multipart/form-data; boundary=" ++ boundary

def HttpRequestFile (env : Env) (net : Net) (httpMethod url tokenString : String)
    (paramTexts : List (String × String)) (paramFilename paramFilepath : String) :
    (String × Option GoError) × Net :=
  let net := net.invoke
    ⟨httpMethod, url, tokenString, CallArgs.file paramTexts paramFilename paramFilepath⟩
  match ReadFile env paramFilepath with
  | Except.error err => (("", some err), net)
  | Except.ok (filename, fileContent) =>
    match env.createFormFileErr paramFilename filename with
    | some err => (("", some err), net)
    | none =>
      match writeFields env paramTexts with
      | some err => (("", some err), net)
      | none =>
        match env.newRequestErr httpMethod url with
        | some _ => (("", none), net)
        | none =>
          let request := setAuthorization
            ((Request.mk httpMethod url []
              (Body.multipart env.boundary paramFilename filename fileContent paramTexts)).HeaderSet
              "Content-Type" (FormDataContentType env.boundary)) tokenString
          match env.clientDo net.sent.length request with
          | Except.error _ => (("", none), net.send request)
          | Except.ok response =>
            if response.StatusCode != StatusOK then
              (("", some (fmtErrorf ("http status:" ++ response.Status ++ ", code:" ++
                strconvItoa response.StatusCode ++ ", url:" ++ url))), net.send request)
            else
              match response.Body with
              | Except.error err => (("", some err), net.send request)
              | Except.ok responseBody => ((responseBody, none), net.send request)

def HttpPutFile (env : Env) (net : Net) (url tokenString : String)
    (paramTexts : List (String × String)) (paramFilename paramFilepath : String) :
    (String × Option GoError) × Net :=
  HttpRequestFile env net "PUT" url tokenString paramTexts paramFilename paramFilepath

def HttpPostFile (env : Env) (net : Net) (url tokenString : String)
    (paramTexts : List (String × String)) (paramFilename paramFilepath : String) :
    (String × Option GoError) × Net :=
  HttpRequestFile env net "POST" url tokenString paramTexts paramFilename paramFilepath

/-! ## net/url: form values -/

/-- Go's url.Values: each key with its values, in the order of first insertion. -/
abbrev Values := List (String × List String)

/-- Values.Add: appends the value to the values of the key. -/
def Values.Add (v : Values) (key value : String) : Values :=
  if v.any (fun kv => kv.1 == key) then
    v.map (fun kv => if kv.1 == key then (kv.1, kv.2 ++ [value]) else kv)
  else v ++ [(key, [value])]

/-- The UTF-8 bytes of a character. -/
def utf8Bytes (c : Char) : List Nat :=
  let n := c.toNat
  if n < 128 then [n]
  else if n < 2048 then [192 + n / 64, 128 + n % 64]
  else if n < 65536 then [224 + n / 4096, 128 + (n / 64) % 64, 128 + n % 64]
  else [240 + n / 262144, 128 + (n / 4096) % 64, 128 + (n / 64) % 64, 128 + n % 64]

/-- The upper-case hexadecimal digit of a number below 16. -/
def upperhex (n : Nat) : Char :=
  if n < 10 then Char.ofNat (48 + n) else Char.ofNat (55 + n)

/-- Whether url.QueryEscape leaves a byte as it is: letters, digits and - _ . ~ -/
def unreservedByte (b : Nat) : Bool :=
  (48 ≤ b && b ≤ 57) || (65 ≤ b && b ≤ 90) || (97 ≤ b && b ≤ 122) ||
    b == 45 || b == 95 || b == 46 || b == 126

/-- How url.QueryEscape writes one byte. -/
def escapeByte (b : Nat) : List Char :=
  if b == 32 then ['+']
  else if unreservedByte b then [Char.ofNat b]
  else ['%', upperhex (b / 16), upperhex (b % 16)]

/-- Go's url.QueryEscape. -/
def QueryEscape (s : String) : String :=
  String.mk ((s.data.flatMap utf8Bytes).flatMap escapeByte)

/-- Go's order on strings, a ≤ b, on their characters. -/
def stringLe : List Char → List Char → Bool
  | [], _ => true
  | _ :: _, [] => false
  | a :: as, b :: bs =>
    if a.toNat < b.toNat then true
    else if b.toNat < a.toNat then false
    else stringLe as bs

/-- Values.Encode: key=value pairs joined by an ampersand, sorted by key. -/
def Values.Encode (v : Values) : String :=
  "&".intercalate
    (((v.insertionSort (fun a b => stringLe a.1.data b.1.data = true)).map
      (fun kv => kv.2.map (fun value => QueryEscape kv.1 ++ "=" ++ QueryEscape value))).flatten)

/-- Assignment m[key] = value on a Go map[string]string, kept as an association list. -/
def mapSet (m : List (String × String)) (key value : String) : List (String × String) :=
  if m.any (fun kv => kv.1 == key) then
    m.map (fun kv => if kv.1 == key then (key, value) else kv)
  else m ++ [(key, value)]

/-! ## client/swan.go -/

/-- Line 75 of SwanGetJwtToken: the transport call of one token exchange. -/
def tokenExchange (env : Env) (net : Net) (apiUrl apiKey accessToken : String) :
    String × Net :=
  HttpPostNoToken env net (apiUrl ++ "/user/api_keys/jwt")
    (Params.value (Payload.tokenAccessInfo ⟨apiKey, accessToken⟩))

/-- The record of that call in the history. -/
def tokenCall (apiUrl apiKey accessToken : String) : Call :=
  ⟨"POST", apiUrl ++ "/user/api_keys/jwt", "",
    CallArgs.params (Params.value (Payload.tokenAccessInfo ⟨apiKey, accessToken⟩))⟩

/-- The history after the first i token exchanges made in a row from net, each at the
history the one before left. -/
def netAfterExchanges (env : Env) (apiUrl apiKey accessToken : String) : Nat → Net → Net
  | 0, net => net
  | i + 1, net =>
    netAfterExchanges env apiUrl apiKey accessToken i
      (tokenExchange env net apiUrl apiKey accessToken).2

namespace SwanClient

def SwanGetJwtToken (env : Env) (net : Net) (swanClient : SwanClient)
    (apiKey accessToken : String) : Outcome (SwanClient × Option GoError) × Net :=
  let data : TokenAccessInfo := ⟨apiKey, accessToken⟩
  if goLen swanClient.ApiUrl == 0 then
    (Outcome.ret (swanClient, some (fmtErrorf "api url is required")), net)
  else if goLen data.ApiKey == 0 then
    (Outcome.ret (swanClient, some (fmtErrorf "api key is required")), net)
  else if goLen data.AccessToken == 0 then
    (Outcome.ret (swanClient, some (fmtErrorf "acess token is required")), net)
  else
    let apiUrl := swanClient.ApiUrl ++ "/user/api_keys/jwt"
    let r := HttpPostNoToken env net apiUrl (Params.value (Payload.tokenAccessInfo data))
    let response := r.1
    if goLen response == 0 then
      (Outcome.ret (swanClient,
        some (fmtErrorf ("no response from swan platform:" ++ apiUrl))), r.2)
    else if stringsContains response "fail" then
      let message := env.GetFieldStrFromJson response "message"
      let status := env.GetFieldStrFromJson response "status"
      (Outcome.ret (swanClient,
        some (fmtErrorf ("status:" ++ status ++ ",message:" ++ message))), r.2)
    else
      match env.GetFieldMapFromJson response "data" with
      | none =>
        (Outcome.ret (swanClient, some (fmtErrorf "error: fail to connect to swan api")), r.2)
      | some jwtToken =>
        match assertString (mapIndex jwtToken "jwt") with
        | Outcome.panic m => (Outcome.panic m, r.2)
        | Outcome.ret jwt => (Outcome.ret ({ swanClient with JwtToken := jwt }, none), r.2)

end SwanClient

/-- The loop of SwanGetClientByKey (lines 157-165): remaining counts the iterations
left, err is the loop variable err. -/
def SwanGetClientByKey.loop (env : Env) (apiKey accessToken : String) :
    Nat → Option GoError → SwanClient → Net → Outcome (SwanClient × Option GoError) × Net
  | 0, err, swanClient, net => (Outcome.ret (swanClient, err), net)
  | remaining + 1, _, swanClient, net =>
    match swanClient.SwanGetJwtToken env net apiKey accessToken with
    | (Outcome.panic m, net1) => (Outcome.panic m, net1)
    | (Outcome.ret (swanClient1, some err), net1) =>
      SwanGetClientByKey.loop env apiKey accessToken remaining (some err) swanClient1 net1
    | (Outcome.ret (swanClient1, none), net1) => (Outcome.ret (swanClient1, none), net1)

def SwanGetClientByKey (env : Env) (net : Net) (apiUrl apiKey accessToken : String) :
    Outcome (Except GoError SwanClient) × Net :=
  if goLen apiUrl == 0 then
    (Outcome.ret (Except.error (fmtErrorf "api url is required")), net)
  else if goLen apiKey == 0 then
    (Outcome.ret (Except.error (fmtErrorf "api key is required")), net)
  else if goLen accessToken == 0 then
    (Outcome.ret (Except.error (fmtErrorf "access token is required")), net)
  else
    match SwanGetClientByKey.loop env apiKey accessToken 3 none ⟨apiUrl, ""⟩ net with
    | (Outcome.panic m, net1) => (Outcome.panic m, net1)
    | (Outcome.ret (_, some _), net1) =>
      (Outcome.ret (Except.error
        (fmtErrorf "failed to connect to swan platform after trying 3 times")), net1)
    | (Outcome.ret (swanClient, none), net1) => (Outcome.ret (Except.ok swanClient), net1)

def SwanGetClient (env : Env) (net : Net) (apiUrl apiKey accessToken jwtToken : String) :
    Outcome (Except GoError SwanClient) × Net :=
  if goLen apiUrl == 0 then
    (Outcome.ret (Except.error (fmtErrorf "api url is required")), net)
  else if jwtToken == EMPTY_STRING then
    SwanGetClientByKey env net apiUrl apiKey accessToken
  else
    (Outcome.ret (Except.ok ⟨apiUrl, jwtToken⟩), net)

namespace SwanClient

/-- Lines 177-182 of SwanGetOfflineDeals: the URL, with the first optional limit or the
default of 50. -/
def offlineDealsUrl (swanClient : SwanClient) (minerFid status : String)
    (limit : List String) : String :=
  let rowLimit :=
    match limit with
    | [] => strconvItoa GET_OFFLINEDEAL_LIMIT_DEFAULT
    | limit0 :: _ => limit0
  swanClient.ApiUrl ++ "/offline_deals/" ++ minerFid ++ "?deal_status=" ++
    status ++ "&limit=" ++ rowLimit ++ "&offset=0"

def SwanGetOfflineDeals (env : Env) (net : Net) (swanClient : SwanClient)
    (minerFid status : String) (limit : List String) : Slice OfflineDeal × Net :=
  let urlStr := swanClient.offlineDealsUrl minerFid status limit
  let r := HttpGet env net urlStr swanClient.JwtToken (Params.value (Payload.str ""))
  match jsonUnmarshal env.decodeGetOfflineDealResponse r.1 with
  | Except.error _ => (none, r.2)
  | Except.ok getOfflineDealResponse =>
    if stringsToUpper env.unicodeUpper getOfflineDealResponse.Status
        != RESPONSE_STATUS_SUCCESS then
      (none, r.2)
    else (getOfflineDealResponse.Data.Deal, r.2)

/-- Lines 207-220 of SwanUpdateOfflineDealStatus: the form values. -/
def updateOfflineDealParams (status : String) (statusInfo : List String) : Values :=
  let params : Values := []
  let params := params.Add "status" status
  let params := if statusInfo.length > 0 then params.Add "note" (statusInfo.getD 0 "") else params
  let params :=
    if statusInfo.length > 1 then params.Add "file_path" (statusInfo.getD 1 "") else params
  let params :=
    if statusInfo.length > 2 then params.Add "file_size" (statusInfo.getD 2 "") else params
  params

def SwanUpdateOfflineDealStatus (env : Env) (net : Net) (swanClient : SwanClient)
    (dealId : Int) (status : String) (statusInfo : List String) : Bool × Net :=
  if goLen status == 0 then (false, net)
  else
    let apiUrl := swanClient.ApiUrl ++ "/my_miner/deals/" ++ strconvItoa dealId
    let params := updateOfflineDealParams status statusInfo
    let r := HttpPut env net apiUrl swanClient.JwtToken (Params.reader params.Encode)
    match jsonUnmarshal env.decodeUpdateOfflineDealResponse r.1 with
    | Except.error _ => (false, r.2)
    | Except.ok updateOfflineDealResponse =>
      if stringsToUpper env.unicodeUpper updateOfflineDealResponse.Status
          != RESPONSE_STATUS_SUCCESS then
        (false, r.2)
      else (true, r.2)

/-- Lines 253-267 of SwanCreateTask: the field map; none when a nil pointer of the task
is dereferenced, which panics. -/
def createTaskParams (task : Task) : Option (List (String × String)) :=
  let params : List (String × String) := []
  let params := mapSet params "task_name" task.TaskName
  let params := mapSet params "curated_dataset" task.CuratedDataset
  let params := mapSet params "description" task.Description
  match task.IsPublic with
  | none => none
  | some isPublic =>
    let params := mapSet params "is_public" (strconvItoa isPublic)
    match task.TaskType with
    | none => none
    | some type =>
      let params := mapSet params "type" type
      let params :=
        match task.MinerFid with
        | some minerFid => mapSet params "miner_id" minerFid
        | none => params
      let params := mapSet params "fast_retrieval" (strconvFormatBool task.FastRetrievalBool)
      match task.BidMode with
      | none => none
      | some bidMode =>
        let params := mapSet params "bid_mode" (strconvItoa bidMode)
        match task.MaxPrice with
        | none => none
        | some maxPrice =>
          let params := mapSet params "max_price" maxPrice.text
          match task.ExpireDays with
          | none => none
          | some expireDays => some (mapSet params "expire_days" (strconvItoa expireDays))

def SwanCreateTask (env : Env) (net : Net) (swanClient : SwanClient) (task : Task)
    (csvFilePath : String) : Outcome (Except GoError SwanCreateTaskResponse) × Net :=
  let apiUrl := swanClient.ApiUrl ++ "/tasks"
  match createTaskParams task with
  | none => (Outcome.panic "invalid memory address or nil pointer dereference", net)
  | some params =>
    let r := HttpPostFile env net apiUrl swanClient.JwtToken params "file" csvFilePath
    match r.1.2 with
    | some err => (Outcome.ret (Except.error err), r.2)
    | none =>
      match jsonUnmarshal env.decodeSwanCreateTaskResponse r.1.1 with
      | Except.error err => (Outcome.ret (Except.error err), r.2)
      | Except.ok swanCreateTaskResponse =>
        if swanCreateTaskResponse.Status != SWAN_API_STATUS_SUCCESS then
          (Outcome.ret (Except.error (fmtErrorf ("error:" ++ swanCreateTaskResponse.Status ++
            "," ++ swanCreateTaskResponse.Message))), r.2)
        else (Outcome.ret (Except.ok swanCreateTaskResponse), r.2)

def SwanGetTaskByUuid (env : Env) (net : Net) (swanClient : SwanClient) (uuid : String) :
    Except GoError GetTaskByUuidResult × Net :=
  let apiUrl := swanClient.ApiUrl ++ "/tasks/" ++ uuid
  let r := HttpGet env net apiUrl swanClient.JwtToken (Params.value (Payload.str ""))
  let response := r.1
  if response == "" then (Except.error (fmtErrorf "failed to get tasks from swan"), r.2)
  else
    match jsonUnmarshal env.decodeGetTaskByUuidResult response with
    | Except.error err => (Except.error err, r.2)
    | Except.ok getTaskByUuidResult =>
      if getTaskByUuidResult.Status != SWAN_API_STATUS_SUCCESS then
        (Except.error (fmtErrorf ("error:" ++ getTaskByUuidResult.Status)), r.2)
      else (Except.ok getTaskByUuidResult, r.2)

/-- Lines 343-346 of SwanGetTasks: the URL, with the limit when one is given. -/
def tasksUrl (swanClient : SwanClient) (limit : Option Int) : String :=
  let apiUrl := swanClient.ApiUrl ++ "/tasks"
  match limit with
  | some l => apiUrl ++ "?limit=" ++ strconvItoa l
  | none => apiUrl

def SwanGetTasks (env : Env) (net : Net) (swanClient : SwanClient) (limit : Option Int) :
    Except GoError GetTaskResult × Net :=
  let apiUrl := swanClient.tasksUrl limit
  let r := HttpGet env net apiUrl swanClient.JwtToken (Params.value (Payload.str ""))
  let response := r.1
  if response == "" then (Except.error (fmtErrorf "failed to get tasks from swan"), r.2)
  else
    match jsonUnmarshal env.decodeGetTaskResult response with
    | Except.error err => (Except.error err, r.2)
    | Except.ok getTaskResult =>
      if getTaskResult.Status != SWAN_API_STATUS_SUCCESS then
        (Except.error (fmtErrorf ("error:" ++ getTaskResult.Status)), r.2)
      else (Except.ok getTaskResult, r.2)

/-- Lines 375-378 of SwanGetAssignedTasksByLimit: the URL, with the limit when one is
given. -/
def assignedTasksUrl (swanClient : SwanClient) (limit : Option Int) : String :=
  let apiUrl := swanClient.ApiUrl ++ "/tasks?status=Assigned"
  match limit with
  | some l => apiUrl ++ "&limit=" ++ strconvItoa l
  | none => apiUrl

def SwanGetAssignedTasksByLimit (env : Env) (net : Net) (swanClient : SwanClient)
    (limit : Option Int) : Except GoError GetTaskResult × Net :=
  let apiUrl := swanClient.assignedTasksUrl limit
  let r := HttpGet env net apiUrl swanClient.JwtToken (Params.value (Payload.str ""))
  let response := r.1
  if response == "" then (Except.error (fmtErrorf "failed to get tasks from swan"), r.2)
  else
    match jsonUnmarshal env.decodeGetTaskResult response with
    | Except.error err => (Except.error err, r.2)
    | Except.ok getTaskResult =>
      if getTaskResult.Status != SWAN_API_STATUS_SUCCESS then
        (Except.error (fmtErrorf ("error:" ++ getTaskResult.Status)), r.2)
      else (Except.ok getTaskResult, r.2)

/-- Lines 430-437 of SwanGetAssignedTasks: the range loop that appends to result each
task with status Assigned and a miner id. -/
def assignedWithMiner (tasks : List Task) : List Task :=
  tasks.foldl
    (fun result task =>
      if task.Status == TASK_STATUS_ASSIGNED && task.MinerFid != none then result ++ [task]
      else result)
    []

def SwanGetAssignedTasks (env : Env) (net : Net) (swanClient : SwanClient) :
    Except GoError (Slice Task) × Net :=
  match swanClient.SwanGetAssignedTasksByLimit env net none with
  | (Except.error err, net1) => (Except.error err, net1)
  | (Except.ok getTaskResult, net1) =>
    if getTaskResult.Data.Task.len == 0 then (Except.ok none, net1)
    else
      match swanClient.SwanGetAssignedTasksByLimit env net1
          (some getTaskResult.Data.TotalTaskCount) with
      | (Except.error err, net2) => (Except.error err, net2)
      | (Except.ok getTaskResult, net2) =>
        if getTaskResult.Data.Task.len == 0 then (Except.ok none, net2)
        else
          (Except.ok (some (assignedWithMiner getTaskResult.Data.Task.elems)), net2)

def SwanGetOfflineDealsByTaskUuid (env : Env) (net : Net) (swanClient : SwanClient)
    (taskUuid : String) : Except GoError GetOfflineDealsByTaskUuidResult × Net :=
  if goLen taskUuid == 0 then (Except.error (fmtErrorf "please provide task uuid"), net)
  else
    let apiUrl := swanClient.ApiUrl ++ "/tasks/" ++ taskUuid
    let r := HttpGet env net apiUrl swanClient.JwtToken (Params.value (Payload.str ""))
    let response := r.1
    if response == "" then (Except.error (fmtErrorf "failed to get tasks from swan"), r.2)
    else
      match jsonUnmarshal env.decodeGetOfflineDealsByTaskUuidResult response with
      | Except.error err => (Except.error err, r.2)
      | Except.ok getOfflineDealsByTaskUuidResult =>
        if getOfflineDealsByTaskUuidResult.Status != SWAN_API_STATUS_SUCCESS then
          (Except.error (fmtErrorf ("error:" ++ getOfflineDealsByTaskUuidResult.Status)), r.2)
        else (Except.ok getOfflineDealsByTaskUuidResult, r.2)

def SwanUpdateTaskByUuid (env : Env) (net : Net) (swanClient : SwanClient)
    (taskUuid minerFid csvFilePath : String) : Option GoError × Net :=
  let apiUrl := swanClient.ApiUrl ++ "/uuid_tasks/" ++ taskUuid
  let params := mapSet [] "miner_fid" minerFid
  let r := HttpPutFile env net apiUrl swanClient.JwtToken params "file" csvFilePath
  match r.1.2 with
  | some err => (some err, r.2)
  | none =>
    let response := r.1.1
    if response == "" then (some (fmtErrorf ("no response from :" ++ apiUrl)), r.2)
    else
      let status := env.GetFieldStrFromJson response "status"
      if status != SWAN_API_STATUS_SUCCESS then
        let message := env.GetFieldStrFromJson response "message"
        (some (fmtErrorf ("access:" ++ apiUrl ++ " failed, status:" ++ status ++
          ", message:" ++ message)), r.2)
      else (none, r.2)

def SwanUpdateAssignedTask (env : Env) (net : Net) (swanClient : SwanClient)
    (taskUuid status csvFilePath : String) : Except GoError SwanCreateTaskResponse × Net :=
  let apiUrl := swanClient.ApiUrl ++ "/tasks/" ++ taskUuid
  let params := mapSet [] "status" status
  let r := HttpPutFile env net apiUrl swanClient.JwtToken params "file" csvFilePath
  match r.1.2 with
  | some err => (Except.error err, r.2)
  | none =>
    match jsonUnmarshal env.decodeSwanCreateTaskResponse r.1.1 with
    | Except.error err => (Except.error err, r.2)
    | Except.ok swanCreateTaskResponse =>
      if swanCreateTaskResponse.Status != SWAN_API_STATUS_SUCCESS then
        (Except.error (fmtErrorf ("error:" ++ swanCreateTaskResponse.Status ++ "," ++
          swanCreateTaskResponse.Message)), r.2)
      else (Except.ok swanCreateTaskResponse, r.2)

end SwanClient

/-! ## Concrete environments

Instances of `Env` on which the definitions are evaluated. -/

/-- An environment in which nothing works: no connection, no file, no JSON to decode.
Payloads are marshalled as encoding/json does for strings that need no escaping. -/
def deadEnv : Env where
  jsonMarshal := fun p =>
    match p with
    | Payload.str s => Except.ok ("\"" ++ s ++ "\"")
    | Payload.tokenAccessInfo info =>
      Except.ok ("\x7b\"apikey\":\"" ++ info.ApiKey ++ "\",\"access_token\":\"" ++
        info.AccessToken ++ "\"\x7d")
    | Payload.other _ => Except.error (fmtErrorf "json: unsupported type")
  newRequestErr := fun _ _ => none
  clientDo := fun _ _ => Except.error (fmtErrorf "connection refused")
  osStat := fun _ => Except.error (fmtErrorf "no such file or directory")
  ioutilReadFile := fun _ => Except.error (fmtErrorf "no such file or directory")
  boundary := "4f1c"
  createFormFileErr := fun _ _ => none
  writeFieldErr := fun _ _ => none
  GetFieldStrFromJson := fun _ _ => ""
  GetFieldMapFromJson := fun _ _ => none
  decodeGetOfflineDealResponse := fun _ => Except.error (fmtErrorf "invalid character")
  decodeUpdateOfflineDealResponse := fun _ => Except.error (fmtErrorf "invalid character")
  decodeSwanCreateTaskResponse := fun _ => Except.error (fmtErrorf "invalid character")
  decodeGetTaskByUuidResult := fun _ => Except.error (fmtErrorf "invalid character")
  decodeGetTaskResult := fun _ => Except.error (fmtErrorf "invalid character")
  decodeGetOfflineDealsByTaskUuidResult := fun _ => Except.error (fmtErrorf "invalid character")
  unicodeUpper := fun c => c

/-- A token response body: data holds the jwt "tok". -/
def jwtBody : String := "\x7b\"status\":\"success\",\"data\":\x7b\"jwt\":\"tok\"\x7d\x7d"

/-- The platform refuses the first connection and answers the second request with
jwtBody. -/
def secondTryEnv : Env :=
  { deadEnv with
    clientDo := fun n _ =>
      if n == 1 then Except.ok ⟨"200 OK", 200, Except.ok jwtBody⟩
      else Except.error (fmtErrorf "connection refused")
    GetFieldMapFromJson := fun body field =>
      if body == jwtBody && field == "data" then some [("jwt", GoValue.string "tok")]
      else none }

/-- A token response body whose jwt is the empty string. -/
def emptyJwtBody : String := "\x7b\"status\":\"success\",\"data\":\x7b\"jwt\":\"\"\x7d\x7d"

/-- The platform answers every request with status 200 and emptyJwtBody. -/
def emptyJwtEnv : Env :=
  { deadEnv with
    clientDo := fun _ _ => Except.ok ⟨"200 OK", 200, Except.ok emptyJwtBody⟩
    GetFieldMapFromJson := fun body field =>
      if body == emptyJwtBody && field == "data" then some [("jwt", GoValue.string "")]
      else none }

/-- A token response body whose data object has no jwt key. -/
def noJwtBody : String := "\x7b\"status\":\"success\",\"data\":\x7b\x7d\x7d"

/-- The platform answers every request with status 200 and noJwtBody. -/
def noJwtEnv : Env :=
  { deadEnv with
    clientDo := fun _ _ => Except.ok ⟨"200 OK", 200, Except.ok noJwtBody⟩
    GetFieldMapFromJson := fun body field =>
      if body == noJwtBody && field == "data" then some [] else none }

/-- As deadEnv, with a regular file task.csv of four bytes at every path. -/
def fileEnv : Env :=
  { deadEnv with
    osStat := fun _ => Except.ok ⟨"task.csv", true⟩
    ioutilReadFile := fun _ => Except.ok [117, 117, 105, 100] }

/-- Nothing is left of the string once whitespace is trimmed from it. -/
def blankAfterTrimmingWhitespace (s : String) : Bool := s.data.all Char.isWhitespace

/-- As fileEnv, with a platform that answers every request with status 404 and a body. -/
def notFoundEnv : Env :=
  { fileEnv with
    clientDo := fun _ _ => Except.ok ⟨"404 Not Found", 404, Except.ok "404 page not found"⟩ }

/-- As fileEnv, with http.NewRequest rejecting a method that holds a space. -/
def badMethodEnv : Env :=
  { fileEnv with
    newRequestErr := fun method _ =>
      if method.data.contains ' ' then some (fmtErrorf ("net/http: invalid method " ++ method))
      else none }

/-- A task-list envelope body whose status is written in capitals. -/
def upperStatusBody : String :=
  "\x7b\"status\":\"SUCCESS\",\"data\":\x7b\"task\":[],\"total_items\":0,\"total_task_count\":0\x7d\x7d"

/-- As fileEnv, with a platform that answers every request with status 200 and
upperStatusBody, decoded into the envelope types as encoding/json does. -/
def upperStatusEnv : Env :=
  { fileEnv with
    clientDo := fun _ _ => Except.ok ⟨"200 OK", 200, Except.ok upperStatusBody⟩
    decodeGetTaskResult := fun body =>
      if body == upperStatusBody then Except.ok ⟨⟨some [], 0, 0⟩, "SUCCESS"⟩
      else Except.error (fmtErrorf "invalid character")
    decodeSwanCreateTaskResponse := fun body =>
      if body == upperStatusBody then Except.ok ⟨⟨"", ""⟩, "SUCCESS", ""⟩
      else Except.error (fmtErrorf "invalid character")
    decodeGetOfflineDealResponse := fun body =>
      if body == upperStatusBody then Except.ok ⟨⟨none⟩, "SUCCESS"⟩
      else Except.error (fmtErrorf "invalid character")
    decodeUpdateOfflineDealResponse := fun body =>
      if body == upperStatusBody then Except.ok ⟨⟨⟨0, ""⟩, ""⟩, "SUCCESS"⟩
      else Except.error (fmtErrorf "invalid character") }

/-- A task with every pointer field set. -/
def demoTask : Task where
  TaskName := "task-1"
  CuratedDataset := "dataset"
  Description := "demo"
  IsPublic := some 1
  TaskType := some "regular"
  MinerFid := some "f01000"
  FastRetrievalBool := true
  BidMode := some 1
  MaxPrice := some ⟨"0.05"⟩
  ExpireDays := some 4
  Status := "Assigned"
  Uuid := "uuid-1"

/-- A task with the given name, status and miner id. -/
def mkTask (name status : String) (miner : Option String) : Task :=
  { demoTask with TaskName := name, Status := status, MinerFid := miner }

/-- Seven tasks, four of which (t1, t4, t6, t7) have status Assigned and a miner id. -/
def sevenTasks : List Task :=
  [mkTask "t1" "Assigned" (some "f01000"),
   mkTask "t2" "Assigned" none,
   mkTask "t3" "DealSent" (some "f02000"),
   mkTask "t4" "Assigned" (some "f02000"),
   mkTask "t5" "Created" none,
   mkTask "t6" "Assigned" (some "f03000"),
   mkTask "t7" "Assigned" (some "f01000")]

/-- The JSON text of a task, by name, status and miner id. -/
def renderTask (t : Task) : String :=
  "\x7b\"task_name\":\"" ++ t.TaskName ++ "\",\"status\":\"" ++ t.Status ++ "\",\"miner_id\":" ++
    (match t.MinerFid with
     | some m => "\"" ++ m ++ "\""
     | none => "null") ++ "\x7d"

/-- The JSON text of a task-list envelope with status success. -/
def renderTaskList (tasks : List Task) (totalTaskCount : Int) : String :=
  "\x7b\"status\":\"success\",\"data\":\x7b\"task\":[" ++ ",".intercalate (tasks.map renderTask) ++
    "],\"total_items\":" ++ toString tasks.length ++ ",\"total_task_count\":" ++
    toString totalTaskCount ++ "\x7d\x7d"

/-- The platform holds sevenTasks: asked for the assigned tasks without a limit it
answers with the first two and the total of 7, asked with limit 7 it answers with all. -/
def assignedEnv : Env :=
  { deadEnv with
    clientDo := fun _ req =>
      if req.URL == "http://swan/tasks?status=Assigned" then
        Except.ok ⟨"200 OK", 200, Except.ok (renderTaskList (sevenTasks.take 2) 7)⟩
      else if req.URL == "http://swan/tasks?status=Assigned&limit=7" then
        Except.ok ⟨"200 OK", 200, Except.ok (renderTaskList sevenTasks 7)⟩
      else Except.ok ⟨"404 Not Found", 404, Except.ok "404 page not found"⟩
    decodeGetTaskResult := fun body =>
      if body == renderTaskList (sevenTasks.take 2) 7 then
        Except.ok ⟨⟨some (sevenTasks.take 2), 2, 7⟩, "success"⟩
      else if body == renderTaskList sevenTasks 7 then
        Except.ok ⟨⟨some sevenTasks, 7, 7⟩, "success"⟩
      else Except.error (fmtErrorf "invalid character") }

/-- As fileEnv, with a platform that answers every request with status 200 and an empty
body. -/
def emptyBodyEnv : Env :=
  { fileEnv with
    clientDo := fun _ _ => Except.ok ⟨"200 OK", 200, Except.ok ""⟩ }

/-- As fileEnv, with client.Do refusing every request for want of a protocol scheme, as it
does for a URL that is a path alone. -/
def noSchemeEnv : Env :=
  { fileEnv with
    clientDo := fun _ req =>
      Except.error (fmtErrorf ("Get \"" ++ req.URL ++ "\": unsupported protocol scheme \"\"")) }

/-- A token response body that reports a failure. -/
def failBody : String :=
  "\x7b\"status\":\"fail\",\"message\":\"api_key Not found\"\x7d"

/-- The platform answers every request with status 200 and failBody. -/
def failBodyEnv : Env :=
  { deadEnv with
    clientDo := fun _ _ => Except.ok ⟨"200 OK", 200, Except.ok failBody⟩
    GetFieldStrFromJson := fun body field =>
      if body == failBody && field == "status" then "fail"
      else if body == failBody && field == "message" then "api_key Not found"
      else "" }

/-- The platform holds no assigned task: it answers every request with status 200 and an
empty task list. -/
def noTasksEnv : Env :=
  { deadEnv with
    clientDo := fun _ _ => Except.ok ⟨"200 OK", 200, Except.ok (renderTaskList [] 0)⟩
    decodeGetTaskResult := fun body =>
      if body == renderTaskList [] 0 then Except.ok ⟨⟨some [], 0, 0⟩, "success"⟩
      else Except.error (fmtErrorf "invalid character") }

/-! ## Lemmas on the Go primitives and the transport -/

theorem goLen_eq_zero_iff (s : String) : goLen s = 0 ↔ s = "" := by
  cases s with
  | mk data =>
    cases data with
    | nil => exact ⟨fun _ => rfl, fun _ => rfl⟩
    | cons c cs =>
      constructor
      · intro h
        have hpos := Char.utf8Size_pos c
        simp only [goLen, String.utf8ByteSize, String.utf8ByteSize.go] at h
        omega
      · intro h
        exact absurd (congrArg String.data h) (by simp)

theorem goLen_beq_zero (s : String) : (goLen s == 0) = decide (s = "") := by
  by_cases h : s = ""
  · subst h; rfl
  · have : goLen s ≠ 0 := fun h0 => h ((goLen_eq_zero_iff s).1 h0)
    simp [h, this]

theorem goLen_pos_iff (s : String) : goLen s > 0 ↔ s ≠ "" := by
  have h := goLen_eq_zero_iff s
  constructor
  · intro hp hs
    have := h.2 hs
    omega
  · intro hne
    have : goLen s ≠ 0 := fun h0 => hne (h.1 h0)
    omega

theorem httpRequest_invoked (env : Env) (net : Net) (m u t : String) (p : Params) :
    (httpRequest env net m u t p).2.invoked = net.invoked ++ [⟨m, u, t, CallArgs.params p⟩] := by
  unfold httpRequest
  simp only [Net.invoke, Net.send]
  split
  · rfl
  · split
    · rfl
    · split
      · rfl
      · split <;> rfl

theorem tokenExchange_invoked (env : Env) (net : Net) (u k t : String) :
    (tokenExchange env net u k t).2.invoked = net.invoked ++ [tokenCall u k t] := by
  unfold tokenExchange HttpPostNoToken tokenCall
  exact httpRequest_invoked env net _ _ _ _

/-- With its three inputs non-empty, SwanGetJwtToken makes one transport call and then
either returns an error and leaves the client as it was, or panics, or stores the jwt
string of the response and returns nil. -/
theorem SwanGetJwtToken_cases (env : Env) (net : Net) (c : SwanClient) (k t : String)
    (hUrl : c.ApiUrl ≠ "") (hKey : k ≠ "") (hTok : t ≠ "") :
    (c.SwanGetJwtToken env net k t).2 = (tokenExchange env net c.ApiUrl k t).2 ∧
    ((∃ e, (c.SwanGetJwtToken env net k t).1 = Outcome.ret (c, some e)) ∨
     (∃ msg, (c.SwanGetJwtToken env net k t).1 = Outcome.panic msg) ∨
     (∃ m jwt, (tokenExchange env net c.ApiUrl k t).1 ≠ "" ∧
        stringsContains (tokenExchange env net c.ApiUrl k t).1 "fail" = false ∧
        env.GetFieldMapFromJson (tokenExchange env net c.ApiUrl k t).1 "data" = some m ∧
        mapIndex m "jwt" = GoValue.string jwt ∧
        (c.SwanGetJwtToken env net k t).1 = Outcome.ret (⟨c.ApiUrl, jwt⟩, none))) := by
  unfold SwanClient.SwanGetJwtToken tokenExchange
  simp only [goLen_beq_zero, hUrl, hKey, hTok, decide_False, Bool.false_eq_true, if_false]
  generalize HttpPostNoToken env net (c.ApiUrl ++ "/user/api_keys/jwt")
    (Params.value (Payload.tokenAccessInfo ⟨k, t⟩)) = r
  by_cases h1 : r.1 = ""
  · simp [h1]
  · by_cases h2 : stringsContains r.1 "fail" = true
    · simp [h1, h2]
    · simp only [h1, h2, decide_False, Bool.false_eq_true, if_false]
      cases hm : env.GetFieldMapFromJson r.1 "data" with
      | none => simp
      | some m =>
        dsimp only
        cases hj : mapIndex m "jwt" <;> simp [assertString, h1, h2, hj]

/-- What a returning token exchange tells: one more transport call, the same base URL,
on an error the same client, on success the jwt string of the response as token. -/
theorem SwanGetJwtToken_ret (env : Env) (net : Net) (c : SwanClient) (k t : String)
    (hUrl : c.ApiUrl ≠ "") (hKey : k ≠ "") (hTok : t ≠ "")
    (c1 : SwanClient) (err : Option GoError) (n1 : Net)
    (h : c.SwanGetJwtToken env net k t = (Outcome.ret (c1, err), n1)) :
    n1 = (tokenExchange env net c.ApiUrl k t).2 ∧
    n1.invoked = net.invoked ++ [tokenCall c.ApiUrl k t] ∧
    c1.ApiUrl = c.ApiUrl ∧
    (err ≠ none → c1 = c) ∧
    (err = none → ∃ m, (tokenExchange env net c.ApiUrl k t).1 ≠ "" ∧
      env.GetFieldMapFromJson (tokenExchange env net c.ApiUrl k t).1 "data" = some m ∧
      mapIndex m "jwt" = GoValue.string c1.JwtToken) := by
  obtain ⟨h2, hc⟩ := SwanGetJwtToken_cases env net c k t hUrl hKey hTok
  rw [h] at h2 hc
  simp only at h2 hc
  have hinv := tokenExchange_invoked env net c.ApiUrl k t
  rw [← h2] at hinv
  refine ⟨h2, hinv, ?_⟩
  rcases hc with ⟨e, he⟩ | ⟨msg, hmsg⟩ | ⟨m, jwt, hne, _, hm, hj, hret⟩
  · simp only [Outcome.ret.injEq, Prod.mk.injEq] at he
    obtain ⟨hc1, herr⟩ := he
    subst hc1 herr
    simp
  · simp at hmsg
  · simp only [Outcome.ret.injEq, Prod.mk.injEq] at hret
    obtain ⟨hc1, herr⟩ := hret
    subst hc1 herr
    exact ⟨rfl, fun h0 => absurd rfl h0, fun _ => ⟨m, hne, hm, hj⟩⟩

theorem list_ne_append_singleton {α : Type} (l : List α) (x : α) : l ≠ l ++ [x] := by
  intro h
  have := congrArg List.length h
  simp at this

theorem append_singleton_cancel {α : Type} (l : List α) (x y : α)
    (h : l ++ [x] = l ++ [y]) : x = y := by
  simpa using h

/-- The requests httpRequest hands to client.Do: none when no request could be built,
else the built request with the bearer header decided by the token. -/
theorem httpRequest_sent (env : Env) (net : Net) (m u t : String) (p : Params) :
    (httpRequest env net m u t p).2.sent =
      match httpRequestBuild env m u p with
      | Except.error _ => net.sent
      | Except.ok request => net.sent ++ [setAuthorization request t] := by
  unfold httpRequest
  simp only [Net.invoke, Net.send]
  split
  · rfl
  · split
    · rfl
    · split
      · rfl
      · split <;> rfl

/-- The bearer header after lines 77-79, for a request that had none before. -/
theorem setAuthorization_get (request : Request) (t : String)
    (h : request.HeaderGet "Authorization" = none) :
    (stringsTrim t " " ≠ "" →
      (setAuthorization request t).HeaderGet "Authorization" = some ("Bearer " ++ t)) ∧
    (stringsTrim t " " = "" →
      (setAuthorization request t).HeaderGet "Authorization" = none) := by
  unfold setAuthorization
  constructor
  · intro hne
    rw [if_pos ((goLen_pos_iff _).2 hne)]
    simp [Request.HeaderGet, Request.HeaderSet, List.lookup]
  · intro he
    have : ¬ goLen (stringsTrim t " ") > 0 := fun hp => (goLen_pos_iff _).1 hp he
    rw [if_neg this]
    exact h

theorem lookup_filter_ne (k k1 : String) (hk : k ≠ k1) (l : List (String × String)) :
    List.lookup k (l.filter (fun kv => kv.1 != k1)) = List.lookup k l := by
  induction l with
  | nil => rfl
  | cons kv rest ih =>
    obtain ⟨key, value⟩ := kv
    by_cases hkey : key = k1
    · subst hkey
      have h1 : (k == key) = false := by simpa using hk
      simp [List.filter, List.lookup, h1, ih]
    · have h2 : (key != k1) = true := by simpa using hkey
      simp only [List.filter, h2, List.lookup]
      rw [ih]

/-- Setting the bearer header leaves the content type as it was. -/
theorem setAuthorization_content_type (request : Request) (t : String) :
    (setAuthorization request t).HeaderGet "Content-Type" = request.HeaderGet "Content-Type" := by
  unfold setAuthorization
  split
  · simp only [Request.HeaderGet, Request.HeaderSet, List.lookup]
    have hk : ("Content-Type" == "Authorization") = false := by decide
    rw [hk]
    exact lookup_filter_ne "Content-Type" "Authorization" (by decide) request.Header
  · rfl

/-- The requests HttpRequestFile hands to client.Do: none, or one multipart request with
the bearer header decided by the token. -/
theorem HttpRequestFile_sent (env : Env) (net : Net) (m u t : String)
    (paramTexts : List (String × String)) (paramFilename paramFilepath : String) :
    (HttpRequestFile env net m u t paramTexts paramFilename paramFilepath).2.sent = net.sent ∨
    ∃ filename fileContent,
      (HttpRequestFile env net m u t paramTexts paramFilename paramFilepath).2.sent
        = net.sent ++ [setAuthorization
            ((Request.mk m u []
              (Body.multipart env.boundary paramFilename filename fileContent paramTexts)).HeaderSet
              "Content-Type" (FormDataContentType env.boundary)) t] := by
  unfold HttpRequestFile
  simp only [Net.invoke, Net.send]
  split
  · exact Or.inl rfl
  · split
    · exact Or.inl rfl
    · split
      · exact Or.inl rfl
      · split
        · exact Or.inl rfl
        · split
          · exact Or.inr ⟨_, _, rfl⟩
          · split
            · exact Or.inr ⟨_, _, rfl⟩
            · split <;> exact Or.inr ⟨_, _, rfl⟩

theorem jsonUnmarshal_ok_ne {α : Type} (dec : String → Except GoError α) (data : String)
    (r : α) (h : jsonUnmarshal dec data = Except.ok r) : data ≠ "" := by
  intro hd
  subst hd
  simp [jsonUnmarshal, goLen_beq_zero] at h

theorem jsonUnmarshal_empty {α : Type} (dec : String → Except GoError α) :
    jsonUnmarshal dec "" = Except.error (fmtErrorf "unexpected end of JSON input") := by
  simp [jsonUnmarshal, goLen_beq_zero]

theorem HttpRequestFile_invoked (env : Env) (net : Net) (m u t : String)
    (paramTexts : List (String × String)) (paramFilename paramFilepath : String) :
    (HttpRequestFile env net m u t paramTexts paramFilename paramFilepath).2.invoked
      = net.invoked ++ [⟨m, u, t, CallArgs.file paramTexts paramFilename paramFilepath⟩] := by
  unfold HttpRequestFile
  simp only [Net.invoke, Net.send]
  split
  · rfl
  · split
    · rfl
    · split
      · rfl
      · split
        · rfl
        · split
          · rfl
          · split
            · rfl
            · split <;> rfl

/-- A request that httpRequestBuild builds has the method and the URL it was given. -/
theorem httpRequestBuild_url (env : Env) (m u : String) (p : Params) (request : Request)
    (h : httpRequestBuild env m u p = Except.ok request) :
    request.Method = m ∧ request.URL = u := by
  unfold httpRequestBuild at h
  cases p with
  | reader content =>
    simp only at h
    split at h
    · simp at h
    · simp only [Except.ok.injEq] at h
      subst h
      exact ⟨rfl, rfl⟩
  | value v =>
    simp only at h
    split at h
    · simp at h
    · split at h
      · simp at h
      · simp only [Except.ok.injEq] at h
        subst h
        exact ⟨rfl, rfl⟩

theorem setAuthorization_url (request : Request) (t : String) :
    (setAuthorization request t).Method = request.Method ∧
    (setAuthorization request t).URL = request.URL := by
  unfold setAuthorization
  split <;> exact ⟨rfl, rfl⟩

/-- When httpRequest returns a non-empty text, it has handed exactly one request to
client.Do, with the method and the URL it was given. -/
theorem httpRequest_nonempty_sent (env : Env) (net : Net) (m u t : String) (p : Params)
    (h : (httpRequest env net m u t p).1 ≠ "") :
    ∃ req, (httpRequest env net m u t p).2.sent = net.sent ++ [req] ∧
      req.Method = m ∧ req.URL = u := by
  rw [httpRequest_sent]
  cases hb : httpRequestBuild env m u p with
  | error e =>
    exfalso
    apply h
    unfold httpRequest
    simp only [hb]
  | ok request =>
    obtain ⟨hm, hu⟩ := httpRequestBuild_url env m u p request hb
    obtain ⟨hm1, hu1⟩ := setAuthorization_url request t
    exact ⟨_, rfl, hm1.trans hm, hu1.trans hu⟩

/-- The requests httpRequest hands to client.Do: at most one, with the method and the URL
it was given. -/
theorem httpRequest_sent_url (env : Env) (net : Net) (m u t : String) (p : Params) :
    (httpRequest env net m u t p).2.sent = net.sent ∨
    ∃ req, (httpRequest env net m u t p).2.sent = net.sent ++ [req] ∧
      req.Method = m ∧ req.URL = u := by
  rw [httpRequest_sent]
  cases hb : httpRequestBuild env m u p with
  | error e => exact Or.inl rfl
  | ok request =>
    obtain ⟨hm, hu⟩ := httpRequestBuild_url env m u p request hb
    obtain ⟨hm1, hu1⟩ := setAuthorization_url request t
    exact Or.inr ⟨_, rfl, hm1.trans hm, hu1.trans hu⟩

/-- The history after SwanGetAssignedTasksByLimit is the history after its one GET. -/
theorem SwanGetAssignedTasksByLimit_net (env : Env) (net : Net) (c : SwanClient)
    (limit : Option Int) :
    (c.SwanGetAssignedTasksByLimit env net limit).2
      = (HttpGet env net (c.assignedTasksUrl limit) c.JwtToken
          (Params.value (Payload.str ""))).2 := by
  unfold SwanClient.SwanGetAssignedTasksByLimit
  simp only
  split
  · rfl
  · split
    · rfl
    · split <;> rfl

/-- A successful SwanGetAssignedTasksByLimit had a non-empty response text. -/
theorem SwanGetAssignedTasksByLimit_ok_response (env : Env) (net : Net) (c : SwanClient)
    (limit : Option Int) (r : GetTaskResult)
    (h : (c.SwanGetAssignedTasksByLimit env net limit).1 = Except.ok r) :
    (HttpGet env net (c.assignedTasksUrl limit) c.JwtToken
      (Params.value (Payload.str ""))).1 ≠ "" := by
  intro he
  unfold SwanClient.SwanGetAssignedTasksByLimit at h
  simp [he] at h

theorem assignedTasksUrl_none (c : SwanClient) :
    c.assignedTasksUrl none = c.ApiUrl ++ "/tasks?status=Assigned" := rfl

theorem assignedTasksUrl_some (c : SwanClient) (n : Int) :
    c.assignedTasksUrl (some n)
      = c.ApiUrl ++ "/tasks?status=Assigned&limit=" ++ strconvItoa n := by
  show c.ApiUrl ++ "/tasks?status=Assigned" ++ "&limit=" ++ strconvItoa n = _
  rw [String.append_assoc c.ApiUrl "/tasks?status=Assigned" "&limit="]
  rfl

theorem tasksUrl_none (c : SwanClient) : c.tasksUrl none = c.ApiUrl ++ "/tasks" := rfl

theorem tasksUrl_some (c : SwanClient) (n : Int) :
    c.tasksUrl (some n) = c.ApiUrl ++ "/tasks?limit=" ++ strconvItoa n := by
  show c.ApiUrl ++ "/tasks" ++ "?limit=" ++ strconvItoa n = _
  rw [String.append_assoc c.ApiUrl "/tasks" "?limit="]
  rfl

/-- The URL of SwanGetOfflineDeals: base URL, path with the miner, the status filter, the
first optional limit or else 50, and offset 0. -/
theorem offlineDealsUrl_eq (c : SwanClient) (minerFid status : String) (limit : List String) :
    c.offlineDealsUrl minerFid status limit
      = c.ApiUrl ++ "/offline_deals/" ++ minerFid ++ "?deal_status=" ++ status ++ "&limit=" ++
          limit.headD "50" ++ "&offset=0" := by
  cases limit with
  | nil => rfl
  | cons limit0 rest => rfl

/-! ## C1: the bounded retry of SwanGetClientByKey -/

/-- C1. With apiUrl, apiKey and accessToken non-empty: if the three successive token
exchanges each return an error, SwanGetClientByKey returns an error and no client after
exactly three transport calls; if the first returns an error and the second returns nil,
it returns the client after exactly two transport calls, and that client's JwtToken is
the jwt string in the data of the second response. -/
theorem C1_SwanGetClientByKey_retry (env : Env) (net : Net)
    (apiUrl apiKey accessToken : String)
    (hUrl : apiUrl ≠ "") (hKey : apiKey ≠ "") (hTok : accessToken ≠ "") :
    (∀ (c1 c2 c3 : SwanClient) (e1 e2 e3 : GoError) (n1 n2 n3 : Net),
      SwanClient.SwanGetJwtToken env net ⟨apiUrl, ""⟩ apiKey accessToken
        = (Outcome.ret (c1, some e1), n1) →
      c1.SwanGetJwtToken env n1 apiKey accessToken = (Outcome.ret (c2, some e2), n2) →
      c2.SwanGetJwtToken env n2 apiKey accessToken = (Outcome.ret (c3, some e3), n3) →
      (∃ err, SwanGetClientByKey env net apiUrl apiKey accessToken
        = (Outcome.ret (Except.error err), n3)) ∧
      n3.invoked = net.invoked ++ List.replicate 3 (tokenCall apiUrl apiKey accessToken)) ∧
    (∀ (c1 c2 : SwanClient) (e1 : GoError) (n1 n2 : Net),
      SwanClient.SwanGetJwtToken env net ⟨apiUrl, ""⟩ apiKey accessToken
        = (Outcome.ret (c1, some e1), n1) →
      c1.SwanGetJwtToken env n1 apiKey accessToken = (Outcome.ret (c2, none), n2) →
      SwanGetClientByKey env net apiUrl apiKey accessToken
        = (Outcome.ret (Except.ok c2), n2) ∧
      n2.invoked = net.invoked ++ List.replicate 2 (tokenCall apiUrl apiKey accessToken) ∧
      ∃ m, env.GetFieldMapFromJson (tokenExchange env n1 apiUrl apiKey accessToken).1 "data"
          = some m ∧
        mapIndex m "jwt" = GoValue.string c2.JwtToken) := by
  have hc0 : (SwanClient.mk apiUrl "").ApiUrl ≠ "" := hUrl
  constructor
  · intro c1 c2 c3 e1 e2 e3 n1 n2 n3 h1 h2 h3
    obtain ⟨-, hi1, -, hs1, -⟩ :=
      SwanGetJwtToken_ret env net ⟨apiUrl, ""⟩ apiKey accessToken hc0 hKey hTok _ _ _ h1
    have hc1 : c1 = ⟨apiUrl, ""⟩ := hs1 (by simp)
    subst hc1
    obtain ⟨-, hi2, -, hs2, -⟩ :=
      SwanGetJwtToken_ret env n1 ⟨apiUrl, ""⟩ apiKey accessToken hc0 hKey hTok _ _ _ h2
    have hc2 : c2 = ⟨apiUrl, ""⟩ := hs2 (by simp)
    subst hc2
    obtain ⟨-, hi3, -, -, -⟩ :=
      SwanGetJwtToken_ret env n2 ⟨apiUrl, ""⟩ apiKey accessToken hc0 hKey hTok _ _ _ h3
    constructor
    · refine ⟨fmtErrorf "failed to connect to swan platform after trying 3 times", ?_⟩
      unfold SwanGetClientByKey
      simp only [goLen_beq_zero, hUrl, hKey, hTok, decide_False, Bool.false_eq_true, if_false]
      simp only [SwanGetClientByKey.loop, h1, h2, h3]
    · rw [hi3, hi2, hi1]
      simp [List.replicate]
  · intro c1 c2 e1 n1 n2 h1 h2
    obtain ⟨-, hi1, -, hs1, -⟩ :=
      SwanGetJwtToken_ret env net ⟨apiUrl, ""⟩ apiKey accessToken hc0 hKey hTok _ _ _ h1
    have hc1 : c1 = ⟨apiUrl, ""⟩ := hs1 (by simp)
    subst hc1
    obtain ⟨-, hi2, -, -, hok⟩ :=
      SwanGetJwtToken_ret env n1 ⟨apiUrl, ""⟩ apiKey accessToken hc0 hKey hTok _ _ _ h2
    obtain ⟨m, -, hm, hj⟩ := hok rfl
    refine ⟨?_, ?_, m, hm, hj⟩
    · unfold SwanGetClientByKey
      simp only [goLen_beq_zero, hUrl, hKey, hTok, decide_False, Bool.false_eq_true, if_false]
      simp only [SwanGetClientByKey.loop, h1, h2]
    · rw [hi2, hi1]
      simp [List.replicate]

/-- C1 at work: an endpoint that is never reachable gives an error after three calls;
one that answers the second request gives the client with token "tok" after two. -/
theorem C1_SwanGetClientByKey_retry_witness :
    ((∃ err, SwanGetClientByKey deadEnv Net.empty "http://swan" "key" "secret"
        = (Outcome.ret (Except.error err),
            (tokenExchange deadEnv (tokenExchange deadEnv (tokenExchange deadEnv Net.empty
              "http://swan" "key" "secret").2 "http://swan" "key" "secret").2
              "http://swan" "key" "secret").2)) ∧
      (tokenExchange deadEnv (tokenExchange deadEnv (tokenExchange deadEnv Net.empty
        "http://swan" "key" "secret").2 "http://swan" "key" "secret").2
        "http://swan" "key" "secret").2.invoked
        = Net.empty.invoked ++ List.replicate 3 (tokenCall "http://swan" "key" "secret")) ∧
    (SwanGetClientByKey secondTryEnv Net.empty "http://swan" "key" "secret"
        = (Outcome.ret (Except.ok ⟨"http://swan", "tok"⟩),
            (tokenExchange secondTryEnv (tokenExchange secondTryEnv Net.empty
              "http://swan" "key" "secret").2 "http://swan" "key" "secret").2) ∧
      (tokenExchange secondTryEnv (tokenExchange secondTryEnv Net.empty
        "http://swan" "key" "secret").2 "http://swan" "key" "secret").2.invoked
        = Net.empty.invoked ++ List.replicate 2 (tokenCall "http://swan" "key" "secret") ∧
      ∃ m, secondTryEnv.GetFieldMapFromJson
          (tokenExchange secondTryEnv (tokenExchange secondTryEnv Net.empty
            "http://swan" "key" "secret").2 "http://swan" "key" "secret").1 "data" = some m ∧
        mapIndex m "jwt" = GoValue.string (SwanClient.mk "http://swan" "tok").JwtToken) :=
  ⟨(C1_SwanGetClientByKey_retry deadEnv Net.empty "http://swan" "key" "secret"
      (by decide) (by decide) (by decide)).1
      ⟨"http://swan", ""⟩ ⟨"http://swan", ""⟩ ⟨"http://swan", ""⟩
      (fmtErrorf "no response from swan platform:http://swan/user/api_keys/jwt")
      (fmtErrorf "no response from swan platform:http://swan/user/api_keys/jwt")
      (fmtErrorf "no response from swan platform:http://swan/user/api_keys/jwt")
      _ _ _ rfl rfl rfl,
   (C1_SwanGetClientByKey_retry secondTryEnv Net.empty "http://swan" "key" "secret"
      (by decide) (by decide) (by decide)).2
      ⟨"http://swan", ""⟩ ⟨"http://swan", "tok"⟩
      (fmtErrorf "no response from swan platform:http://swan/user/api_keys/jwt")
      _ _ rfl rfl⟩

/-! ## C2: the token stored on success -/

/-- When the retry loop ends with a nil error after at least one iteration, the client it
returns holds the jwt string of the response to some token exchange. -/
theorem SwanGetClientByKey_loop_ok (env : Env) (k t : String) (hKey : k ≠ "") (hTok : t ≠ "") :
    ∀ (n : Nat) (err : Option GoError) (c : SwanClient) (net : Net) (c1 : SwanClient)
      (n1 : Net), c.ApiUrl ≠ "" →
      SwanGetClientByKey.loop env k t n err c net = (Outcome.ret (c1, none), n1) →
      (n = 0 ∧ err = none) ∨
      ∃ n0 m jwt, env.GetFieldMapFromJson (tokenExchange env n0 c.ApiUrl k t).1 "data" = some m ∧
        mapIndex m "jwt" = GoValue.string jwt ∧ c1.JwtToken = jwt ∧ c1.ApiUrl = c.ApiUrl := by
  intro n
  induction n with
  | zero =>
    intro err c net c1 n1 _ h
    simp only [SwanGetClientByKey.loop, Prod.mk.injEq, Outcome.ret.injEq] at h
    exact Or.inl ⟨rfl, h.1.2⟩
  | succ n ih =>
    intro err c net c1 n1 hUrl h
    right
    rcases hstep : c.SwanGetJwtToken env net k t with ⟨o, net1⟩
    cases o with
    | panic msg => simp [SwanGetClientByKey.loop, hstep] at h
    | ret p =>
      obtain ⟨c2, e2⟩ := p
      obtain ⟨-, -, hu, hsame, hok⟩ :=
        SwanGetJwtToken_ret env net c k t hUrl hKey hTok c2 e2 net1 hstep
      cases e2 with
      | some e =>
        have hc2 : c2 = c := hsame (by simp)
        subst hc2
        simp only [SwanGetClientByKey.loop, hstep] at h
        rcases ih (some e) c2 net1 c1 n1 hUrl h with ⟨-, hne⟩ | hex
        · simp at hne
        · exact hex
      | none =>
        simp only [SwanGetClientByKey.loop, hstep, Prod.mk.injEq, Outcome.ret.injEq] at h
        obtain ⟨⟨hc, -⟩, -⟩ := h
        subst hc
        obtain ⟨m, -, hm, hj⟩ := hok rfl
        exact ⟨net, m, c2.JwtToken, hm, hj, rfl, hu⟩

/-- A client returned by SwanGetClientByKey holds the jwt string of the response to one of
its token exchanges. -/
theorem SwanGetClientByKey_ok (env : Env) (net : Net) (u k t : String) (c1 : SwanClient)
    (n1 : Net) (h : SwanGetClientByKey env net u k t = (Outcome.ret (Except.ok c1), n1)) :
    ∃ n0 m jwt, env.GetFieldMapFromJson (tokenExchange env n0 u k t).1 "data" = some m ∧
      mapIndex m "jwt" = GoValue.string jwt ∧ c1.JwtToken = jwt ∧ c1.ApiUrl = u := by
  unfold SwanGetClientByKey at h
  simp only [goLen_beq_zero] at h
  by_cases hUrl : u = ""
  · simp [hUrl] at h
  · by_cases hKey : k = ""
    · simp [hUrl, hKey] at h
    · by_cases hTok : t = ""
      · simp [hUrl, hKey, hTok] at h
      · simp only [hUrl, hKey, hTok, decide_False, Bool.false_eq_true, if_false] at h
        rcases hl : SwanGetClientByKey.loop env k t 3 none ⟨u, ""⟩ net with ⟨o, net1⟩
        rw [hl] at h
        cases o with
        | panic msg => simp at h
        | ret p =>
          obtain ⟨c2, e2⟩ := p
          cases e2 with
          | some e => simp at h
          | none =>
            simp only [Prod.mk.injEq, Outcome.ret.injEq, Except.ok.injEq] at h
            obtain ⟨hc, -⟩ := h
            subst hc
            rcases SwanGetClientByKey_loop_ok env k t hKey hTok 3 none ⟨u, ""⟩ net c2 net1
              hUrl hl with ⟨h3, -⟩ | hex
            · simp at h3
            · exact hex

/-- One more exchange after i of them is the exchange made at the history they left. -/
theorem netAfterExchanges_succ (env : Env) (u k t : String) :
    ∀ (i : Nat) (net : Net),
      netAfterExchanges env u k t (i + 1) net
        = (tokenExchange env (netAfterExchanges env u k t i net) u k t).2 := by
  intro i
  induction i with
  | zero => intro net; rfl
  | succ i ih =>
    intro net
    show netAfterExchanges env u k t (i + 1) (tokenExchange env net u k t).2 = _
    rw [ih]
    rfl

/-- The run of SwanGetClientByKey against that platform, evaluated: the exchange whose
response is stored is the second one made from the history of the call, and the token is
the jwt "tok" of its response. -/
theorem SwanGetClientByKey_second_try_run :
    SwanGetClientByKey secondTryEnv Net.empty "http://swan" "key" "secret"
      = (Outcome.ret (Except.ok ⟨"http://swan", "tok"⟩),
          netAfterExchanges secondTryEnv "http://swan" "key" "secret" 2 Net.empty) ∧
    (tokenExchange secondTryEnv
        (netAfterExchanges secondTryEnv "http://swan" "key" "secret" 1 Net.empty)
        "http://swan" "key" "secret").1 = jwtBody ∧
    (tokenExchange secondTryEnv Net.empty "http://swan" "key" "secret").1 = "" := by
  exact ⟨rfl, rfl, rfl⟩

/-- C3, what the code does. For a non-empty response without "fail" whose data object
has no jwt key, or a jwt value that is not a string, SwanGetJwtToken does not return an
error: the unchecked type assertion on line 109 panics. -/
theorem C3_SwanGetJwtToken_panics_without_jwt_string (env : Env) (net : Net)
    (c : SwanClient) (k t : String) (m : List (String × GoValue))
    (hUrl : c.ApiUrl ≠ "") (hKey : k ≠ "") (hTok : t ≠ "")
    (hne : (tokenExchange env net c.ApiUrl k t).1 ≠ "")
    (hfail : stringsContains (tokenExchange env net c.ApiUrl k t).1 "fail" = false)
    (hm : env.GetFieldMapFromJson (tokenExchange env net c.ApiUrl k t).1 "data" = some m)
    (hj : ∀ s, mapIndex m "jwt" ≠ GoValue.string s) :
    ∃ msg, (c.SwanGetJwtToken env net k t).1 = Outcome.panic msg := by
  unfold SwanClient.SwanGetJwtToken
  unfold tokenExchange at hne hfail hm
  simp only [goLen_beq_zero, hUrl, hKey, hTok, hne, hfail, hm, decide_False,
    Bool.false_eq_true, if_false]
  cases hv : mapIndex m "jwt" with
  | string s => exact absurd hv (hj s)
  | nil => exact ⟨_, rfl⟩
  | bool b => exact ⟨_, rfl⟩
  | float64 d => exact ⟨_, rfl⟩
  | slice xs => exact ⟨_, rfl⟩
  | map xs => exact ⟨_, rfl⟩

/-- C3 at the failing input: the response body with an empty data object makes
SwanGetJwtToken panic. -/
theorem C3_SwanGetJwtToken_panics_without_jwt_string_witness :
    ∃ msg, (SwanClient.SwanGetJwtToken noJwtEnv Net.empty ⟨"http://swan", ""⟩
      "key" "secret").1 = Outcome.panic msg :=
  C3_SwanGetJwtToken_panics_without_jwt_string noJwtEnv Net.empty ⟨"http://swan", ""⟩
    "key" "secret" [] (by decide) (by decide) (by decide) (by decide) rfl rfl
    (fun s h => by simp [mapIndex] at h)

/-! ## C4: content type and bearer header -/

/-- C4, as the code has it. For a body that is not a reader, every request httpRequest
hands to client.Do has Content-Type "application/json; charset=utf-8", and it carries
the Authorization header "Bearer " followed by the token exactly when the token is
non-empty after trimming space characters (U+0020) from both ends, no other whitespace
being trimmed; the same holds for the Authorization header of the request HttpRequestFile
hands to client.Do. A request is built whenever json.Marshal and http.NewRequest
succeed. -/
theorem C4_content_type_and_bearer_header (env : Env) (net : Net) (m u t : String) :
    (∀ (v : Payload) (req : Request),
      (httpRequest env net m u t (Params.value v)).2.sent = net.sent ++ [req] →
      req.HeaderGet "Content-Type" = some HTTP_CONTENT_TYPE_JSON ∧
      (stringsTrim t " " ≠ "" → req.HeaderGet "Authorization" = some ("Bearer " ++ t)) ∧
      (stringsTrim t " " = "" → req.HeaderGet "Authorization" = none)) ∧
    (∀ (v : Payload) (jsonReq : String),
      env.jsonMarshal v = Except.ok jsonReq → env.newRequestErr m u = none →
      ∃ req, (httpRequest env net m u t (Params.value v)).2.sent = net.sent ++ [req]) ∧
    (∀ (paramTexts : List (String × String)) (paramFilename paramFilepath : String)
      (req : Request),
      (HttpRequestFile env net m u t paramTexts paramFilename paramFilepath).2.sent
        = net.sent ++ [req] →
      (stringsTrim t " " ≠ "" → req.HeaderGet "Authorization" = some ("Bearer " ++ t)) ∧
      (stringsTrim t " " = "" → req.HeaderGet "Authorization" = none)) := by
  refine ⟨?_, ?_, ?_⟩
  · intro v req h
    rw [httpRequest_sent] at h
    unfold httpRequestBuild at h
    cases hj : env.jsonMarshal v with
    | error e =>
      simp only [hj] at h
      exact absurd h (list_ne_append_singleton _ _)
    | ok jsonReq =>
      cases hn : env.newRequestErr m u with
      | some e =>
        simp only [hj, hn] at h
        exact absurd h (list_ne_append_singleton _ _)
      | none =>
        simp only [hj, hn] at h
        have hreq := append_singleton_cancel _ _ _ h
        subst hreq
        refine ⟨?_, setAuthorization_get _ t rfl⟩
        rw [setAuthorization_content_type]
        rfl
  · intro v jsonReq hj hn
    rw [httpRequest_sent]
    unfold httpRequestBuild
    simp only [hj, hn]
    exact ⟨_, rfl⟩
  · intro paramTexts paramFilename paramFilepath req h
    rcases HttpRequestFile_sent env net m u t paramTexts paramFilename paramFilepath with
      h0 | ⟨filename, fileContent, h1⟩
    · rw [h0] at h
      exact absurd h (list_ne_append_singleton _ _)
    · rw [h1] at h
      have hreq := append_singleton_cancel _ _ _ h
      subst hreq
      exact setAuthorization_get _ t rfl

/-- C4 at work: a GET with token " tok" carries the JSON content type and the header
"Bearer  tok"; with a token of two spaces it carries no Authorization header; the same
for a file upload. -/
theorem C4_content_type_and_bearer_header_witness :
    ((Request.mk "GET" "http://swan/tasks"
        [("Authorization", "Bearer  tok"), ("Content-Type", HTTP_CONTENT_TYPE_JSON)]
        (Body.text "\"\"")).HeaderGet "Content-Type" = some HTTP_CONTENT_TYPE_JSON ∧
      (Request.mk "GET" "http://swan/tasks"
        [("Authorization", "Bearer  tok"), ("Content-Type", HTTP_CONTENT_TYPE_JSON)]
        (Body.text "\"\"")).HeaderGet "Authorization" = some ("Bearer " ++ " tok")) ∧
    (Request.mk "GET" "http://swan/tasks" [("Content-Type", HTTP_CONTENT_TYPE_JSON)]
        (Body.text "\"\"")).HeaderGet "Authorization" = none ∧
    (∃ req, (httpRequest deadEnv Net.empty "GET" "http://swan/tasks" " tok"
        (Params.value (Payload.str ""))).2.sent = Net.empty.sent ++ [req]) ∧
    (Request.mk "PUT" "http://swan/tasks/7"
        [("Authorization", "Bearer  tok"),
          ("Content-Type", FormDataContentType "4f1c")]
        (Body.multipart "4f1c" "file" "task.csv" [117, 117, 105, 100]
          [("status", "Completed")])).HeaderGet "Authorization" = some ("Bearer " ++ " tok") ∧
    (Request.mk "PUT" "http://swan/tasks/7" [("Content-Type", FormDataContentType "4f1c")]
        (Body.multipart "4f1c" "file" "task.csv" [117, 117, 105, 100]
          [("status", "Completed")])).HeaderGet "Authorization" = none :=
  ⟨⟨((C4_content_type_and_bearer_header deadEnv Net.empty "GET" "http://swan/tasks" " tok").1
      (Payload.str "") _ rfl).1,
    ((C4_content_type_and_bearer_header deadEnv Net.empty "GET" "http://swan/tasks" " tok").1
      (Payload.str "") _ rfl).2.1 (by decide)⟩,
   ((C4_content_type_and_bearer_header deadEnv Net.empty "GET" "http://swan/tasks" "  ").1
      (Payload.str "") _ rfl).2.2 (by decide),
   (C4_content_type_and_bearer_header deadEnv Net.empty "GET" "http://swan/tasks" " tok").2.1
      (Payload.str "") "\"\"" rfl rfl,
   ((C4_content_type_and_bearer_header fileEnv Net.empty "PUT" "http://swan/tasks/7" " tok").2.2
      [("status", "Completed")] "file" "/tmp/task.csv" _ rfl).1 (by decide),
   ((C4_content_type_and_bearer_header fileEnv Net.empty "PUT" "http://swan/tasks/7" "  ").2.2
      [("status", "Completed")] "file" "/tmp/task.csv" _ rfl).2 (by decide)⟩

/-- C4 fails as stated: a token that is a single tab is blank once whitespace is trimmed,
yet httpRequest and HttpRequestFile attach the header "Bearer " followed by the tab. -/
theorem C4_counterexample_tab_token :
    blankAfterTrimmingWhitespace "\t" = true ∧
    (httpRequest deadEnv Net.empty "GET" "http://swan/tasks" "\t"
        (Params.value (Payload.str ""))).2.sent
      = [⟨"GET", "http://swan/tasks",
          [("Authorization", "Bearer \t"), ("Content-Type", "application/json; charset=utf-8")],
          Body.text "\"\""⟩] ∧
    (HttpRequestFile fileEnv Net.empty "PUT" "http://swan/tasks/7" "\t"
        [("status", "Completed")] "file" "/tmp/task.csv").2.sent
      = [⟨"PUT", "http://swan/tasks/7",
          [("Authorization", "Bearer \t"),
            ("Content-Type", "multipart/form-data; boundary=4f1c")],
          Body.multipart "4f1c" "file" "task.csv" [117, 117, 105, 100]
            [("status", "Completed")]⟩] :=
  ⟨rfl, rfl, rfl⟩

/-! ## C5: a status other than 200 -/

/-- C5. When the request that httpRequest or HttpRequestFile hands to client.Do is
answered by a response whose status code is not 200, whatever its body, httpRequest
returns the empty string, and HttpRequestFile returns the empty string with a non-nil
error (the one naming the status); a non-empty body text is never what is returned. -/
theorem C5_non200_returns_empty (env : Env) (net : Net) (m u t : String)
    (response : Response) (hstatus : response.StatusCode ≠ StatusOK) :
    (∀ (params : Params) (req : Request),
      (httpRequest env net m u t params).2.sent = net.sent ++ [req] →
      env.clientDo net.sent.length req = Except.ok response →
      (httpRequest env net m u t params).1 = "" ∧
      ∀ body, response.Body = Except.ok body → body ≠ "" →
        (httpRequest env net m u t params).1 ≠ body) ∧
    (∀ (paramTexts : List (String × String)) (paramFilename paramFilepath : String)
      (req : Request),
      (HttpRequestFile env net m u t paramTexts paramFilename paramFilepath).2.sent
        = net.sent ++ [req] →
      env.clientDo net.sent.length req = Except.ok response →
      (HttpRequestFile env net m u t paramTexts paramFilename paramFilepath).1
        = ("", some (fmtErrorf ("http status:" ++ response.Status ++ ", code:" ++
            strconvItoa response.StatusCode ++ ", url:" ++ u))) ∧
      ∀ body, response.Body = Except.ok body → body ≠ "" →
        (HttpRequestFile env net m u t paramTexts paramFilename paramFilepath).1.1 ≠ body) := by
  have hbne : (response.StatusCode != StatusOK) = true := by simpa using hstatus
  constructor
  · intro params req hs hdo
    have hres : (httpRequest env net m u t params).1 = "" := by
      rw [httpRequest_sent] at hs
      unfold httpRequest
      simp only [Net.invoke, Net.send]
      cases hb : httpRequestBuild env m u params with
      | error e =>
        simp only [hb] at hs
        exact absurd hs (list_ne_append_singleton _ _)
      | ok request =>
        simp only [hb] at hs ⊢
        rw [append_singleton_cancel _ _ _ hs, hdo]
        simp only [hbne, if_true]
    exact ⟨hres, fun body _ hne => by rw [hres]; exact fun h => hne h.symm⟩
  · intro paramTexts paramFilename paramFilepath req hs hdo
    have hres : (HttpRequestFile env net m u t paramTexts paramFilename paramFilepath).1
        = ("", some (fmtErrorf ("http status:" ++ response.Status ++ ", code:" ++
            strconvItoa response.StatusCode ++ ", url:" ++ u))) := by
      rcases HttpRequestFile_sent env net m u t paramTexts paramFilename paramFilepath with
        h0 | ⟨filename, fileContent, h1⟩
      · rw [h0] at hs
        exact absurd hs (list_ne_append_singleton _ _)
      · rw [h1] at hs
        have hreq := append_singleton_cancel _ _ _ hs
        unfold HttpRequestFile at h1 ⊢
        simp only [Net.invoke, Net.send] at h1 ⊢
        cases hr : ReadFile env paramFilepath with
        | error e =>
          simp only [hr] at h1
          exact absurd h1 (list_ne_append_singleton _ _)
        | ok p =>
          obtain ⟨filename1, fileContent1⟩ := p
          simp only [hr] at h1 ⊢
          cases hc : env.createFormFileErr paramFilename filename1 with
          | some e =>
            simp only [hc] at h1
            exact absurd h1 (list_ne_append_singleton _ _)
          | none =>
            simp only [hc] at h1 ⊢
            cases hw : writeFields env paramTexts with
            | some e =>
              simp only [hw] at h1
              exact absurd h1 (list_ne_append_singleton _ _)
            | none =>
              simp only [hw] at h1 ⊢
              cases hn : env.newRequestErr m u with
              | some e =>
                simp only [hn] at h1
                exact absurd h1 (list_ne_append_singleton _ _)
              | none =>
                simp only [hn] at h1 ⊢
                have hsame : setAuthorization
                    ((Request.mk m u [] (Body.multipart env.boundary paramFilename filename1
                      fileContent1 paramTexts)).HeaderSet
                      "Content-Type" (FormDataContentType env.boundary)) t = req := by
                  rw [← hreq]
                  split at h1
                  · exact append_singleton_cancel _ _ _ h1
                  · split at h1
                    · exact append_singleton_cancel _ _ _ h1
                    · split at h1 <;> exact append_singleton_cancel _ _ _ h1
                rw [hsame, hdo]
                simp only [hbne, if_true]
    refine ⟨hres, fun body _ hne => ?_⟩
    rw [hres]
    exact fun h => hne h.symm

/-- C5 at work: a platform answering 404 with a body. -/
theorem C5_non200_returns_empty_witness :
    ((httpRequest notFoundEnv Net.empty "GET" "http://swan/tasks" "tok"
        (Params.value (Payload.str ""))).1 = "" ∧
      ∀ body, (Response.mk "404 Not Found" 404 (Except.ok "404 page not found")).Body
          = Except.ok body → body ≠ "" →
        (httpRequest notFoundEnv Net.empty "GET" "http://swan/tasks" "tok"
          (Params.value (Payload.str ""))).1 ≠ body) ∧
    ((HttpRequestFile notFoundEnv Net.empty "PUT" "http://swan/tasks/7" "tok"
        [("status", "Completed")] "file" "/tmp/task.csv").1
      = ("", some (fmtErrorf ("http status:" ++ "404 Not Found" ++ ", code:" ++
          strconvItoa 404 ++ ", url:" ++ "http://swan/tasks/7"))) ∧
      ∀ body, (Response.mk "404 Not Found" 404 (Except.ok "404 page not found")).Body
          = Except.ok body → body ≠ "" →
        (HttpRequestFile notFoundEnv Net.empty "PUT" "http://swan/tasks/7" "tok"
          [("status", "Completed")] "file" "/tmp/task.csv").1.1 ≠ body) :=
  ⟨(C5_non200_returns_empty notFoundEnv Net.empty "GET" "http://swan/tasks" "tok"
      ⟨"404 Not Found", 404, Except.ok "404 page not found"⟩ (by decide)).1
      (Params.value (Payload.str "")) _ rfl rfl,
   (C5_non200_returns_empty notFoundEnv Net.empty "PUT" "http://swan/tasks/7" "tok"
      ⟨"404 Not Found", 404, Except.ok "404 page not found"⟩ (by decide)).2
      [("status", "Completed")] "file" "/tmp/task.csv" _ rfl rfl⟩

/-! ## C6: the failure paths of HttpRequestFile -/

/-- C6, what the code does. With the file read and the multipart body built, when
http.NewRequest fails (line 152) or client.Do fails (line 164), HttpRequestFile returns
the empty string together with a nil error. -/
theorem C6_HttpRequestFile_nil_error_on_failure (env : Env) (net : Net) (m u t : String)
    (paramTexts : List (String × String)) (paramFilename paramFilepath : String)
    (filename : String) (fileContent : List Nat)
    (hread : ReadFile env paramFilepath = Except.ok (filename, fileContent))
    (hcreate : env.createFormFileErr paramFilename filename = none)
    (hwrite : writeFields env paramTexts = none) :
    (∀ e, env.newRequestErr m u = some e →
      (HttpRequestFile env net m u t paramTexts paramFilename paramFilepath).1 = ("", none)) ∧
    (∀ e, env.newRequestErr m u = none →
      env.clientDo net.sent.length (setAuthorization
        ((Request.mk m u []
          (Body.multipart env.boundary paramFilename filename fileContent paramTexts)).HeaderSet
          "Content-Type" (FormDataContentType env.boundary)) t) = Except.error e →
      (HttpRequestFile env net m u t paramTexts paramFilename paramFilepath).1 = ("", none)) := by
  constructor
  · intro e hn
    unfold HttpRequestFile
    simp only [Net.invoke, Net.send, hread, hcreate, hwrite, hn]
  · intro e hn hdo
    unfold HttpRequestFile
    simp only [Net.invoke, Net.send, hread, hcreate, hwrite, hn, hdo]

/-- C6 at the failing inputs: an invalid method, and a refused connection, each give the
empty string and a nil error. -/
theorem C6_HttpRequestFile_nil_error_on_failure_witness :
    (HttpRequestFile badMethodEnv Net.empty "PUT FILE" "http://swan/tasks/7" "tok"
      [("status", "Completed")] "file" "/tmp/task.csv").1 = ("", none) ∧
    (HttpRequestFile fileEnv Net.empty "PUT" "http://swan/tasks/7" "tok"
      [("status", "Completed")] "file" "/tmp/task.csv").1 = ("", none) :=
  ⟨(C6_HttpRequestFile_nil_error_on_failure badMethodEnv Net.empty "PUT FILE"
      "http://swan/tasks/7" "tok" [("status", "Completed")] "file" "/tmp/task.csv"
      "task.csv" [117, 117, 105, 100] rfl rfl rfl).1
      (fmtErrorf "net/http: invalid method PUT FILE") rfl,
   (C6_HttpRequestFile_nil_error_on_failure fileEnv Net.empty "PUT"
      "http://swan/tasks/7" "tok" [("status", "Completed")] "file" "/tmp/task.csv"
      "task.csv" [117, 117, 105, 100] rfl rfl rfl).2
      (fmtErrorf "connection refused") rfl rfl⟩

/-! ## C7: the comparison of the envelope status -/

theorem toNat_ofNat_small (n : Nat) (h : n < 55296) : (Char.ofNat n).toNat = n := by
  have hv : n.isValidChar := Or.inl h
  simp only [Char.ofNat, hv, dite_true, Char.ofNatAux, Char.toNat]
  show (UInt32.ofNat' n _).toNat = n
  simp [UInt32.ofNat', UInt32.toNat]

/-- A character that lower-cases to an ASCII lower-case letter is upper-cased by
unicode.ToUpper to the matching capital. -/
theorem unicodeToUpper_of_toLower (table : Char → Char) (c : Char) (n : Nat)
    (hn : 97 ≤ n ∧ n ≤ 122) (h : c.toLower = Char.ofNat n) :
    unicodeToUpper table c = Char.ofNat (n - 32) := by
  unfold Char.toLower at h
  dsimp only at h
  unfold unicodeToUpper
  dsimp only
  by_cases hc : c.toNat ≥ 65 ∧ c.toNat ≤ 90
  · rw [if_pos hc] at h
    have h1 := congrArg Char.toNat h
    rw [toNat_ofNat_small _ (by omega), toNat_ofNat_small _ (by omega)] at h1
    have h2 : c.toNat < 128 := by omega
    have h3 : ¬ (97 ≤ c.toNat ∧ c.toNat ≤ 122) := by omega
    rw [if_pos h2, if_neg h3]
    have h4 : n - 32 = c.toNat := by omega
    rw [h4, Char.ofNat_toNat]
  · rw [if_neg hc] at h
    have h1 := congrArg Char.toNat h
    rw [toNat_ofNat_small _ (by omega)] at h1
    have h2 : c.toNat < 128 := by omega
    have h3 : 97 ≤ c.toNat ∧ c.toNat ≤ 122 := by omega
    rw [if_pos h2, if_pos h3, h1]

theorem map_unicodeToUpper_of_toLower (table : Char → Char) :
    ∀ (l : List Char) (codes : List Nat), (∀ n ∈ codes, 97 ≤ n ∧ n ≤ 122) →
      l.map Char.toLower = codes.map Char.ofNat →
      l.map (unicodeToUpper table) = codes.map (fun n => Char.ofNat (n - 32)) := by
  intro l
  induction l with
  | nil =>
    intro codes _ h
    cases codes with
    | nil => rfl
    | cons n ns => simp at h
  | cons c cs ih =>
    intro codes hcodes h
    cases codes with
    | nil => simp at h
    | cons n ns =>
      simp only [List.map_cons, List.cons.injEq] at h ⊢
      exact ⟨unicodeToUpper_of_toLower table c n (hcodes n (by simp)) h.1,
        ih ns (fun k hk => hcodes k (by simp [hk])) h.2⟩

/-- Every spelling of "success" in upper and lower case is upper-cased to "SUCCESS". -/
theorem stringsToUpper_success (table : Char → Char) (s : String)
    (h : equalUpToLetterCase s SWAN_API_STATUS_SUCCESS = true) :
    stringsToUpper table s = RESPONSE_STATUS_SUCCESS := by
  have h1 : s.data.map Char.toLower = [115, 117, 99, 99, 101, 115, 115].map Char.ofNat := by
    have := beq_iff_eq.1 h
    rw [this]
    rfl
  have h2 := map_unicodeToUpper_of_toLower table s.data [115, 117, 99, 99, 101, 115, 115]
    (by decide) h1
  unfold stringsToUpper
  rw [h2]
  rfl

/-- C7, as the code has it. Given a response that decodes into the envelope r:
SwanGetOfflineDeals and SwanUpdateOfflineDealStatus succeed exactly when the upper-cased
status is "SUCCESS", which holds for every spelling of "success" in upper and lower case;
SwanCreateTask, SwanGetTaskByUuid, SwanGetTasks, SwanGetAssignedTasksByLimit,
SwanGetOfflineDealsByTaskUuid, SwanUpdateTaskByUuid and SwanUpdateAssignedTask succeed
exactly when the status is the string "success" itself and fail for every other status. -/
theorem C7_status_comparison (env : Env) (net : Net) (c : SwanClient) :
    (∀ (minerFid status : String) (limit : List String) (r : GetOfflineDealResponse),
      jsonUnmarshal env.decodeGetOfflineDealResponse
        (HttpGet env net (c.offlineDealsUrl minerFid status limit) c.JwtToken
          (Params.value (Payload.str ""))).1 = Except.ok r →
      (stringsToUpper env.unicodeUpper r.Status = "SUCCESS" →
        (c.SwanGetOfflineDeals env net minerFid status limit).1 = r.Data.Deal) ∧
      (stringsToUpper env.unicodeUpper r.Status ≠ "SUCCESS" →
        (c.SwanGetOfflineDeals env net minerFid status limit).1 = none)) ∧
    (∀ (dealId : Int) (status : String) (statusInfo : List String)
      (r : UpdateOfflineDealResponse), status ≠ "" →
      jsonUnmarshal env.decodeUpdateOfflineDealResponse
        (HttpPut env net (c.ApiUrl ++ "/my_miner/deals/" ++ strconvItoa dealId) c.JwtToken
          (Params.reader (SwanClient.updateOfflineDealParams status statusInfo).Encode)).1
        = Except.ok r →
      ((c.SwanUpdateOfflineDealStatus env net dealId status statusInfo).1 = true ↔
        stringsToUpper env.unicodeUpper r.Status = "SUCCESS")) ∧
    (∀ s : String, equalUpToLetterCase s "success" = true →
      stringsToUpper env.unicodeUpper s = "SUCCESS") ∧
    (∀ (task : Task) (csvFilePath : String) (params : List (String × String))
      (r : SwanCreateTaskResponse), SwanClient.createTaskParams task = some params →
      (HttpPostFile env net (c.ApiUrl ++ "/tasks") c.JwtToken params "file" csvFilePath).1.2
        = none →
      jsonUnmarshal env.decodeSwanCreateTaskResponse
        (HttpPostFile env net (c.ApiUrl ++ "/tasks") c.JwtToken params "file" csvFilePath).1.1
        = Except.ok r →
      (r.Status = "success" →
        (c.SwanCreateTask env net task csvFilePath).1 = Outcome.ret (Except.ok r)) ∧
      (r.Status ≠ "success" →
        (c.SwanCreateTask env net task csvFilePath).1
          = Outcome.ret (Except.error (fmtErrorf ("error:" ++ r.Status ++ "," ++ r.Message))))) ∧
    (∀ (uuid : String) (r : GetTaskByUuidResult),
      jsonUnmarshal env.decodeGetTaskByUuidResult
        (HttpGet env net (c.ApiUrl ++ "/tasks/" ++ uuid) c.JwtToken
          (Params.value (Payload.str ""))).1 = Except.ok r →
      (r.Status = "success" → (c.SwanGetTaskByUuid env net uuid).1 = Except.ok r) ∧
      (r.Status ≠ "success" →
        (c.SwanGetTaskByUuid env net uuid).1
          = Except.error (fmtErrorf ("error:" ++ r.Status)))) ∧
    (∀ (limit : Option Int) (r : GetTaskResult),
      jsonUnmarshal env.decodeGetTaskResult
        (HttpGet env net (c.tasksUrl limit) c.JwtToken
          (Params.value (Payload.str ""))).1 = Except.ok r →
      (r.Status = "success" → (c.SwanGetTasks env net limit).1 = Except.ok r) ∧
      (r.Status ≠ "success" →
        (c.SwanGetTasks env net limit).1 = Except.error (fmtErrorf ("error:" ++ r.Status)))) ∧
    (∀ (limit : Option Int) (r : GetTaskResult),
      jsonUnmarshal env.decodeGetTaskResult
        (HttpGet env net (c.assignedTasksUrl limit) c.JwtToken
          (Params.value (Payload.str ""))).1 = Except.ok r →
      (r.Status = "success" → (c.SwanGetAssignedTasksByLimit env net limit).1 = Except.ok r) ∧
      (r.Status ≠ "success" →
        (c.SwanGetAssignedTasksByLimit env net limit).1
          = Except.error (fmtErrorf ("error:" ++ r.Status)))) ∧
    (∀ (taskUuid : String) (r : GetOfflineDealsByTaskUuidResult), taskUuid ≠ "" →
      jsonUnmarshal env.decodeGetOfflineDealsByTaskUuidResult
        (HttpGet env net (c.ApiUrl ++ "/tasks/" ++ taskUuid) c.JwtToken
          (Params.value (Payload.str ""))).1 = Except.ok r →
      (r.Status = "success" →
        (c.SwanGetOfflineDealsByTaskUuid env net taskUuid).1 = Except.ok r) ∧
      (r.Status ≠ "success" →
        (c.SwanGetOfflineDealsByTaskUuid env net taskUuid).1
          = Except.error (fmtErrorf ("error:" ++ r.Status)))) ∧
    (∀ (taskUuid minerFid csvFilePath : String),
      (HttpPutFile env net (c.ApiUrl ++ "/uuid_tasks/" ++ taskUuid) c.JwtToken
        (mapSet [] "miner_fid" minerFid) "file" csvFilePath).1.2 = none →
      (HttpPutFile env net (c.ApiUrl ++ "/uuid_tasks/" ++ taskUuid) c.JwtToken
        (mapSet [] "miner_fid" minerFid) "file" csvFilePath).1.1 ≠ "" →
      ((c.SwanUpdateTaskByUuid env net taskUuid minerFid csvFilePath).1 = none ↔
        env.GetFieldStrFromJson
          (HttpPutFile env net (c.ApiUrl ++ "/uuid_tasks/" ++ taskUuid) c.JwtToken
            (mapSet [] "miner_fid" minerFid) "file" csvFilePath).1.1 "status" = "success")) ∧
    (∀ (taskUuid status csvFilePath : String) (r : SwanCreateTaskResponse),
      (HttpPutFile env net (c.ApiUrl ++ "/tasks/" ++ taskUuid) c.JwtToken
        (mapSet [] "status" status) "file" csvFilePath).1.2 = none →
      jsonUnmarshal env.decodeSwanCreateTaskResponse
        (HttpPutFile env net (c.ApiUrl ++ "/tasks/" ++ taskUuid) c.JwtToken
          (mapSet [] "status" status) "file" csvFilePath).1.1 = Except.ok r →
      (r.Status = "success" →
        (c.SwanUpdateAssignedTask env net taskUuid status csvFilePath).1 = Except.ok r) ∧
      (r.Status ≠ "success" →
        (c.SwanUpdateAssignedTask env net taskUuid status csvFilePath).1
          = Except.error (fmtErrorf ("error:" ++ r.Status ++ "," ++ r.Message)))) := by
  refine ⟨?_, ?_, ?_, ?_, ?_, ?_, ?_, ?_, ?_, ?_⟩
  · intro minerFid status limit r h
    unfold SwanClient.SwanGetOfflineDeals
    simp only [h, RESPONSE_STATUS_SUCCESS]
    constructor
    · intro hs
      simp [hs]
    · intro hs
      simp [hs]
  · intro dealId status statusInfo r hst h
    unfold SwanClient.SwanUpdateOfflineDealStatus
    simp only [goLen_beq_zero, hst, decide_False, Bool.false_eq_true, if_false, h,
      RESPONSE_STATUS_SUCCESS]
    by_cases hs : stringsToUpper env.unicodeUpper r.Status = "SUCCESS"
    · simp [hs]
    · simp [hs]
  · intro s hs
    exact stringsToUpper_success env.unicodeUpper s hs
  · intro task csvFilePath params r hp herr h
    unfold SwanClient.SwanCreateTask
    simp only [hp, herr, h, SWAN_API_STATUS_SUCCESS]
    constructor
    · intro hs
      simp [hs]
    · intro hs
      simp [hs]
  · intro uuid r h
    have hne := jsonUnmarshal_ok_ne _ _ _ h
    unfold SwanClient.SwanGetTaskByUuid
    simp only [beq_iff_eq, hne, if_false, h, SWAN_API_STATUS_SUCCESS]
    constructor
    · intro hs
      simp [hs]
    · intro hs
      simp [hs]
  · intro limit r h
    have hne := jsonUnmarshal_ok_ne _ _ _ h
    unfold SwanClient.SwanGetTasks
    simp only [beq_iff_eq, hne, if_false, h, SWAN_API_STATUS_SUCCESS]
    constructor
    · intro hs
      simp [hs]
    · intro hs
      simp [hs]
  · intro limit r h
    have hne := jsonUnmarshal_ok_ne _ _ _ h
    unfold SwanClient.SwanGetAssignedTasksByLimit
    simp only [beq_iff_eq, hne, if_false, h, SWAN_API_STATUS_SUCCESS]
    constructor
    · intro hs
      simp [hs]
    · intro hs
      simp [hs]
  · intro taskUuid r hu h
    have hne := jsonUnmarshal_ok_ne _ _ _ h
    unfold SwanClient.SwanGetOfflineDealsByTaskUuid
    simp only [goLen_beq_zero, hu, decide_False, Bool.false_eq_true, beq_iff_eq, hne, if_false,
      h, SWAN_API_STATUS_SUCCESS]
    constructor
    · intro hs
      simp [hs]
    · intro hs
      simp [hs]
  · intro taskUuid minerFid csvFilePath herr hne
    unfold SwanClient.SwanUpdateTaskByUuid
    simp only [herr, beq_iff_eq, hne, if_false, SWAN_API_STATUS_SUCCESS]
    by_cases hs : env.GetFieldStrFromJson
        (HttpPutFile env net (c.ApiUrl ++ "/uuid_tasks/" ++ taskUuid) c.JwtToken
          (mapSet [] "miner_fid" minerFid) "file" csvFilePath).1.1 "status" = "success"
    · simp [hs]
    · simp [hs]
  · intro taskUuid status csvFilePath r herr h
    unfold SwanClient.SwanUpdateAssignedTask
    simp only [herr, h, SWAN_API_STATUS_SUCCESS]
    constructor
    · intro hs
      simp [hs]
    · intro hs
      simp [hs]

/-- C7 at work: with the status "SUCCESS" SwanGetOfflineDeals and
SwanUpdateOfflineDealStatus succeed and SwanGetTasks fails; "SuCcEsS" equals "success" up
to letter case; with the status "success" SwanGetAssignedTasksByLimit succeeds. -/
theorem C7_status_comparison_witness :
    (SwanClient.SwanGetOfflineDeals upperStatusEnv Net.empty ⟨"http://swan", "tok"⟩
        "f01000" "Created" []).1
      = (GetOfflineDealResponse.mk ⟨none⟩ "SUCCESS").Data.Deal ∧
    (SwanClient.SwanUpdateOfflineDealStatus upperStatusEnv Net.empty ⟨"http://swan", "tok"⟩
        7 "Completed" []).1 = true ∧
    stringsToUpper upperStatusEnv.unicodeUpper "SuCcEsS" = "SUCCESS" ∧
    (SwanClient.SwanGetTasks upperStatusEnv Net.empty ⟨"http://swan", "tok"⟩ none).1
      = Except.error (fmtErrorf ("error:" ++ (GetTaskResult.mk ⟨some [], 0, 0⟩ "SUCCESS").Status)) ∧
    (SwanClient.SwanGetAssignedTasksByLimit assignedEnv Net.empty ⟨"http://swan", "tok"⟩
        (some 7)).1 = Except.ok ⟨⟨some sevenTasks, 7, 7⟩, "success"⟩ :=
  ⟨((C7_status_comparison upperStatusEnv Net.empty ⟨"http://swan", "tok"⟩).1
      "f01000" "Created" [] ⟨⟨none⟩, "SUCCESS"⟩ rfl).1 rfl,
   ((C7_status_comparison upperStatusEnv Net.empty ⟨"http://swan", "tok"⟩).2.1
      7 "Completed" [] ⟨⟨⟨0, ""⟩, ""⟩, "SUCCESS"⟩ (by decide) rfl).2 rfl,
   (C7_status_comparison upperStatusEnv Net.empty ⟨"http://swan", "tok"⟩).2.2.1
      "SuCcEsS" rfl,
   ((C7_status_comparison upperStatusEnv Net.empty ⟨"http://swan", "tok"⟩).2.2.2.2.2.1
      none ⟨⟨some [], 0, 0⟩, "SUCCESS"⟩ rfl).2 (by decide),
   ((C7_status_comparison assignedEnv Net.empty ⟨"http://swan", "tok"⟩).2.2.2.2.2.2.1
      (some 7) ⟨⟨some sevenTasks, 7, 7⟩, "success"⟩ rfl).1 rfl⟩

/-- C7 fails as stated: the status "SUCCESS" equals "success" up to letter case, yet
SwanGetTasks and SwanCreateTask fail on a well-formed envelope that carries it. -/
theorem C7_counterexample_upper_case_status :
    equalUpToLetterCase "SUCCESS" "success" = true ∧
    jsonUnmarshal upperStatusEnv.decodeGetTaskResult upperStatusBody
      = Except.ok ⟨⟨some [], 0, 0⟩, "SUCCESS"⟩ ∧
    (SwanClient.SwanGetTasks upperStatusEnv Net.empty ⟨"http://swan", "tok"⟩ none).1
      = Except.error (fmtErrorf "error:SUCCESS") ∧
    (SwanClient.SwanCreateTask upperStatusEnv Net.empty ⟨"http://swan", "tok"⟩ demoTask
        "/tmp/task.csv").1
      = Outcome.ret (Except.error (fmtErrorf "error:SUCCESS,")) :=
  ⟨rfl, rfl, rfl, rfl⟩

/-! ## C8: the form of SwanUpdateOfflineDealStatus -/

theorem sortedFormKeys (status note filePath fileSize : String) :
    List.insertionSort (fun a b : String × List String => stringLe a.1.data b.1.data = true)
      [("status", [status]), ("note", [note]), ("file_path", [filePath]),
        ("file_size", [fileSize])]
      = [("file_path", [filePath]), ("file_size", [fileSize]), ("note", [note]),
          ("status", [status])] := by
  have k1 : stringLe "note".data "file_path".data = false := by rfl
  have k2 : stringLe "note".data "file_size".data = false := by rfl
  have k3 : stringLe "status".data "file_path".data = false := by rfl
  have k4 : stringLe "status".data "file_size".data = false := by rfl
  have k5 : stringLe "status".data "note".data = false := by rfl
  have k6 : stringLe "file_path".data "file_size".data = true := by rfl
  simp only [List.insertionSort, List.orderedInsert, k1, k2, k3, k4, k5, k6, if_true,
    if_false, Bool.false_eq_true]

/-- The transport call and the request of SwanUpdateOfflineDealStatus for a non-empty
status: a PUT whose params is the reader over the encoded form values. -/
theorem SwanUpdateOfflineDealStatus_net (env : Env) (net : Net) (c : SwanClient)
    (dealId : Int) (status : String) (statusInfo : List String) (hst : status ≠ "") :
    (c.SwanUpdateOfflineDealStatus env net dealId status statusInfo).2
      = (HttpPut env net (c.ApiUrl ++ "/my_miner/deals/" ++ strconvItoa dealId) c.JwtToken
          (Params.reader (SwanClient.updateOfflineDealParams status statusInfo).Encode)).2 := by
  unfold SwanClient.SwanUpdateOfflineDealStatus
  simp only [goLen_beq_zero, hst, decide_False, Bool.false_eq_true, if_false]
  split
  · rfl
  · split <;> rfl

/-- C8. For a non-empty status, SwanUpdateOfflineDealStatus with 0, 1, 2 or 3 optional
arguments builds form values with exactly the fields status; status and note; status,
note and file_path; status, note, file_path and file_size, each with the one value given
for it. It passes their URL encoding to the transport as the reader of a PUT, and a
request that is handed to client.Do has that encoding as body and the form content type. -/
theorem C8_update_offline_deal_form (env : Env) (net : Net) (c : SwanClient)
    (dealId : Int) (status : String) (hst : status ≠ "") :
    (SwanClient.updateOfflineDealParams status [] = [("status", [status])] ∧
      ∀ note filePath fileSize : String,
        SwanClient.updateOfflineDealParams status [note]
          = [("status", [status]), ("note", [note])] ∧
        SwanClient.updateOfflineDealParams status [note, filePath]
          = [("status", [status]), ("note", [note]), ("file_path", [filePath])] ∧
        SwanClient.updateOfflineDealParams status [note, filePath, fileSize]
          = [("status", [status]), ("note", [note]), ("file_path", [filePath]),
              ("file_size", [fileSize])] ∧
        Values.Encode [("status", [status])] = "status=" ++ QueryEscape status ∧
        Values.Encode [("status", [status]), ("note", [note])]
          = "&".intercalate ["note=" ++ QueryEscape note, "status=" ++ QueryEscape status] ∧
        Values.Encode [("status", [status]), ("note", [note]), ("file_path", [filePath])]
          = "&".intercalate ["file_path=" ++ QueryEscape filePath,
              "note=" ++ QueryEscape note, "status=" ++ QueryEscape status] ∧
        Values.Encode [("status", [status]), ("note", [note]), ("file_path", [filePath]),
            ("file_size", [fileSize])]
          = "&".intercalate ["file_path=" ++ QueryEscape filePath,
              "file_size=" ++ QueryEscape fileSize, "note=" ++ QueryEscape note,
              "status=" ++ QueryEscape status]) ∧
    (∀ statusInfo : List String,
      (c.SwanUpdateOfflineDealStatus env net dealId status statusInfo).2.invoked
        = net.invoked ++ [⟨"PUT", c.ApiUrl ++ "/my_miner/deals/" ++ strconvItoa dealId,
            c.JwtToken, CallArgs.params
              (Params.reader (SwanClient.updateOfflineDealParams status statusInfo).Encode)⟩] ∧
      ∀ req : Request,
        (c.SwanUpdateOfflineDealStatus env net dealId status statusInfo).2.sent
          = net.sent ++ [req] →
        req.Method = "PUT" ∧
        req.URL = c.ApiUrl ++ "/my_miner/deals/" ++ strconvItoa dealId ∧
        req.Body = Body.text (SwanClient.updateOfflineDealParams status statusInfo).Encode ∧
        req.HeaderGet "Content-Type" = some HTTP_CONTENT_TYPE_FORM) := by
  refine ⟨⟨?_, ?_⟩, ?_⟩
  · simp [SwanClient.updateOfflineDealParams, Values.Add]
  · intro note filePath fileSize
    have k1 : stringLe "note".data "file_path".data = false := by rfl
    have k5 : stringLe "status".data "note".data = false := by rfl
    have k3 : stringLe "status".data "file_path".data = false := by rfl
    refine ⟨?_, ?_, ?_, ?_, ?_, ?_, ?_⟩
    · simp [SwanClient.updateOfflineDealParams, Values.Add]
    · simp [SwanClient.updateOfflineDealParams, Values.Add]
    · simp [SwanClient.updateOfflineDealParams, Values.Add]
    · have h1 : QueryEscape "status" = "status" := by rfl
      simp only [Values.Encode, List.insertionSort, List.orderedInsert, List.map, List.flatten,
        List.append_nil, h1]
      rfl
    · have h1 : QueryEscape "status" = "status" := by rfl
      have h2 : QueryEscape "note" = "note" := by rfl
      simp only [Values.Encode, List.insertionSort, List.orderedInsert, k5, if_false,
        Bool.false_eq_true, List.map, List.flatten, List.append_nil, List.singleton_append,
        List.nil_append, List.cons_append, h1, h2]
      rfl
    · have h1 : QueryEscape "status" = "status" := by rfl
      have h2 : QueryEscape "note" = "note" := by rfl
      have h3 : QueryEscape "file_path" = "file_path" := by rfl
      simp only [Values.Encode, List.insertionSort, List.orderedInsert, k1, k3, k5, if_false,
        Bool.false_eq_true, List.map, List.flatten, List.append_nil, List.singleton_append,
        List.nil_append, List.cons_append, h1, h2, h3]
      rfl
    · have h1 : QueryEscape "status" = "status" := by rfl
      have h2 : QueryEscape "note" = "note" := by rfl
      have h3 : QueryEscape "file_path" = "file_path" := by rfl
      have h4 : QueryEscape "file_size" = "file_size" := by rfl
      unfold Values.Encode
      rw [sortedFormKeys]
      simp only [List.map, List.flatten, List.append_nil, List.singleton_append, h1, h2, h3,
        h4, List.nil_append, List.cons_append]
      rfl
  · intro statusInfo
    rw [SwanUpdateOfflineDealStatus_net env net c dealId status statusInfo hst]
    unfold HttpPut
    refine ⟨httpRequest_invoked _ _ _ _ _ _, ?_⟩
    intro req hs
    rw [httpRequest_sent] at hs
    unfold httpRequestBuild at hs
    cases hn : env.newRequestErr "PUT" (c.ApiUrl ++ "/my_miner/deals/" ++ strconvItoa dealId) with
    | some e =>
      simp only [hn] at hs
      exact absurd hs (list_ne_append_singleton _ _)
    | none =>
      simp only [hn] at hs
      have hreq := append_singleton_cancel _ _ _ hs
      subst hreq
      refine ⟨?_, ?_, ?_, ?_⟩
      · unfold setAuthorization
        split <;> rfl
      · unfold setAuthorization
        split <;> rfl
      · unfold setAuthorization
        split <;> rfl
      · rw [setAuthorization_content_type]
        rfl

/-- C8 at work: deal 7, status "Completed", note "ok", path "/d/a b.car", size "1024". -/
theorem C8_update_offline_deal_form_witness :
    (SwanClient.SwanUpdateOfflineDealStatus deadEnv Net.empty ⟨"http://swan", "tok"⟩ 7
        "Completed" ["ok", "/d/a b.car", "1024"]).2.invoked
      = Net.empty.invoked ++ [⟨"PUT", "http://swan" ++ "/my_miner/deals/" ++ strconvItoa 7,
          "tok", CallArgs.params (Params.reader
            (SwanClient.updateOfflineDealParams "Completed"
              ["ok", "/d/a b.car", "1024"]).Encode)⟩] ∧
    (SwanClient.updateOfflineDealParams "Completed" ["ok", "/d/a b.car", "1024"]).Encode
      = "file_path=%2Fd%2Fa+b.car&file_size=1024&note=ok&status=Completed" :=
  ⟨((C8_update_offline_deal_form deadEnv Net.empty ⟨"http://swan", "tok"⟩ 7 "Completed"
      (by decide)).2 ["ok", "/d/a b.car", "1024"]).1, rfl⟩

/-! ## C9: the filter of SwanGetAssignedTasks -/

theorem assignedWithMiner_foldl (tasks : List Task) :
    ∀ acc : List Task,
      tasks.foldl
        (fun result task =>
          if task.Status == TASK_STATUS_ASSIGNED && task.MinerFid != none then result ++ [task]
          else result) acc
      = acc ++ tasks.filter
          (fun task => task.Status == TASK_STATUS_ASSIGNED && task.MinerFid != none) := by
  induction tasks with
  | nil => intro acc; simp
  | cons t ts ih =>
    intro acc
    simp only [List.foldl_cons, List.filter_cons]
    by_cases h : (t.Status == TASK_STATUS_ASSIGNED && t.MinerFid != none) = true
    · rw [if_pos h, if_pos h, ih]
      simp
    · rw [if_neg h, if_neg h, ih]

/-- The loop of lines 430-437 keeps, in their order, the tasks with status Assigned and a
miner id. -/
theorem assignedWithMiner_eq_filter (tasks : List Task) :
    SwanClient.assignedWithMiner tasks
      = tasks.filter (fun task => task.Status == TASK_STATUS_ASSIGNED && task.MinerFid != none) := by
  unfold SwanClient.assignedWithMiner
  rw [assignedWithMiner_foldl]
  rfl

/-- C9. When the call without a limit and the call with the reported total as limit both
return successfully with a non-empty task list, SwanGetAssignedTasks returns no error and
the tasks of the second list whose status is exactly "Assigned" and whose miner id is not
nil, in the order they have there. -/
theorem C9_SwanGetAssignedTasks_filter (env : Env) (net : Net) (c : SwanClient)
    (r1 r2 : GetTaskResult) (n1 n2 : Net)
    (h1 : c.SwanGetAssignedTasksByLimit env net none = (Except.ok r1, n1))
    (hne1 : r1.Data.Task.len ≠ 0)
    (h2 : c.SwanGetAssignedTasksByLimit env n1 (some r1.Data.TotalTaskCount)
      = (Except.ok r2, n2))
    (hne2 : r2.Data.Task.len ≠ 0) :
    ∃ result : List Task,
      c.SwanGetAssignedTasks env net = (Except.ok (some result), n2) ∧
      result = r2.Data.Task.elems.filter
        (fun task => task.Status == "Assigned" && task.MinerFid != none) ∧
      List.Sublist result r2.Data.Task.elems ∧
      ∀ task, task ∈ result ↔
        task ∈ r2.Data.Task.elems ∧ task.Status = "Assigned" ∧ task.MinerFid ≠ none := by
  refine ⟨SwanClient.assignedWithMiner r2.Data.Task.elems, ?_, ?_, ?_, ?_⟩
  · unfold SwanClient.SwanGetAssignedTasks
    simp only [h1, h2, beq_iff_eq, hne1, hne2, if_false]
  · exact assignedWithMiner_eq_filter _
  · rw [assignedWithMiner_eq_filter]
    exact List.filter_sublist _
  · intro task
    rw [assignedWithMiner_eq_filter]
    simp [List.mem_filter, TASK_STATUS_ASSIGNED]

/-- C9 at work: of the seven tasks the platform holds, exactly t1, t4, t6 and t7 are
returned, in that order. -/
theorem C9_SwanGetAssignedTasks_filter_witness :
    ∃ result : List Task,
      SwanClient.SwanGetAssignedTasks assignedEnv Net.empty ⟨"http://swan", "tok"⟩
        = (Except.ok (some result),
            (SwanClient.SwanGetAssignedTasksByLimit assignedEnv
              (SwanClient.SwanGetAssignedTasksByLimit assignedEnv Net.empty
                ⟨"http://swan", "tok"⟩ none).2 ⟨"http://swan", "tok"⟩ (some 7)).2) ∧
      result = (GetTaskResult.mk ⟨some sevenTasks, 7, 7⟩ "success").Data.Task.elems.filter
        (fun task => task.Status == "Assigned" && task.MinerFid != none) ∧
      List.Sublist result (GetTaskResult.mk ⟨some sevenTasks, 7, 7⟩ "success").Data.Task.elems ∧
      ∀ task, task ∈ result ↔
        task ∈ (GetTaskResult.mk ⟨some sevenTasks, 7, 7⟩ "success").Data.Task.elems ∧
          task.Status = "Assigned" ∧ task.MinerFid ≠ none :=
  C9_SwanGetAssignedTasks_filter assignedEnv Net.empty ⟨"http://swan", "tok"⟩
    ⟨⟨some (sevenTasks.take 2), 2, 7⟩, "success"⟩ ⟨⟨some sevenTasks, 7, 7⟩, "success"⟩
    _ _ rfl (by decide) rfl (by decide)

/-- The seven-task run evaluated: four tasks come back, t1, t4, t6, t7. -/
theorem SwanGetAssignedTasks_seven_tasks :
    (SwanClient.SwanGetAssignedTasks assignedEnv Net.empty ⟨"http://swan", "tok"⟩).1
      = Except.ok (some [mkTask "t1" "Assigned" (some "f01000"),
          mkTask "t4" "Assigned" (some "f02000"), mkTask "t6" "Assigned" (some "f03000"),
          mkTask "t7" "Assigned" (some "f01000")]) := by
  rfl

/-! ## C10: an empty response body -/

/-- C10. When the transport call of an operation yields the empty string (with or without
an error of its own), the operation reports failure: SwanGetTaskByUuid, SwanGetTasks,
SwanGetAssignedTasksByLimit, SwanGetOfflineDealsByTaskUuid, SwanCreateTask,
SwanUpdateTaskByUuid and SwanUpdateAssignedTask return a non-nil error,
SwanGetOfflineDeals returns nil, SwanUpdateOfflineDealStatus returns false and
SwanGetJwtToken returns a non-nil error. -/
theorem C10_empty_body_is_failure (env : Env) (net : Net) (c : SwanClient) :
    (∀ uuid : String,
      (HttpGet env net (c.ApiUrl ++ "/tasks/" ++ uuid) c.JwtToken
        (Params.value (Payload.str ""))).1 = "" →
      ∃ err, (c.SwanGetTaskByUuid env net uuid).1 = Except.error err) ∧
    (∀ limit : Option Int,
      (HttpGet env net (c.tasksUrl limit) c.JwtToken (Params.value (Payload.str ""))).1 = "" →
      ∃ err, (c.SwanGetTasks env net limit).1 = Except.error err) ∧
    (∀ limit : Option Int,
      (HttpGet env net (c.assignedTasksUrl limit) c.JwtToken
        (Params.value (Payload.str ""))).1 = "" →
      ∃ err, (c.SwanGetAssignedTasksByLimit env net limit).1 = Except.error err) ∧
    (∀ taskUuid : String,
      (HttpGet env net (c.ApiUrl ++ "/tasks/" ++ taskUuid) c.JwtToken
        (Params.value (Payload.str ""))).1 = "" →
      ∃ err, (c.SwanGetOfflineDealsByTaskUuid env net taskUuid).1 = Except.error err) ∧
    (∀ (task : Task) (csvFilePath : String) (params : List (String × String)),
      SwanClient.createTaskParams task = some params →
      (HttpPostFile env net (c.ApiUrl ++ "/tasks") c.JwtToken params "file" csvFilePath).1.1
        = "" →
      ∃ err, (c.SwanCreateTask env net task csvFilePath).1 = Outcome.ret (Except.error err)) ∧
    (∀ taskUuid minerFid csvFilePath : String,
      (HttpPutFile env net (c.ApiUrl ++ "/uuid_tasks/" ++ taskUuid) c.JwtToken
        (mapSet [] "miner_fid" minerFid) "file" csvFilePath).1.1 = "" →
      ∃ err, (c.SwanUpdateTaskByUuid env net taskUuid minerFid csvFilePath).1 = some err) ∧
    (∀ taskUuid status csvFilePath : String,
      (HttpPutFile env net (c.ApiUrl ++ "/tasks/" ++ taskUuid) c.JwtToken
        (mapSet [] "status" status) "file" csvFilePath).1.1 = "" →
      ∃ err, (c.SwanUpdateAssignedTask env net taskUuid status csvFilePath).1
        = Except.error err) ∧
    (∀ (minerFid status : String) (limit : List String),
      (HttpGet env net (c.offlineDealsUrl minerFid status limit) c.JwtToken
        (Params.value (Payload.str ""))).1 = "" →
      (c.SwanGetOfflineDeals env net minerFid status limit).1 = none) ∧
    (∀ (dealId : Int) (status : String) (statusInfo : List String),
      (HttpPut env net (c.ApiUrl ++ "/my_miner/deals/" ++ strconvItoa dealId) c.JwtToken
        (Params.reader (SwanClient.updateOfflineDealParams status statusInfo).Encode)).1 = "" →
      (c.SwanUpdateOfflineDealStatus env net dealId status statusInfo).1 = false) ∧
    (∀ apiKey accessToken : String,
      (tokenExchange env net c.ApiUrl apiKey accessToken).1 = "" →
      ∃ err, (c.SwanGetJwtToken env net apiKey accessToken).1 = Outcome.ret (c, some err)) := by
  refine ⟨?_, ?_, ?_, ?_, ?_, ?_, ?_, ?_, ?_, ?_⟩
  · intro uuid h
    unfold SwanClient.SwanGetTaskByUuid
    simp only [h, beq_self_eq_true, if_true]
    exact ⟨_, rfl⟩
  · intro limit h
    unfold SwanClient.SwanGetTasks
    simp only [h, beq_self_eq_true, if_true]
    exact ⟨_, rfl⟩
  · intro limit h
    unfold SwanClient.SwanGetAssignedTasksByLimit
    simp only [h, beq_self_eq_true, if_true]
    exact ⟨_, rfl⟩
  · intro taskUuid h
    unfold SwanClient.SwanGetOfflineDealsByTaskUuid
    split
    · exact ⟨_, rfl⟩
    · simp only [h, beq_self_eq_true, if_true]
      exact ⟨_, rfl⟩
  · intro task csvFilePath params hp h
    unfold SwanClient.SwanCreateTask
    simp only [hp, h, jsonUnmarshal_empty]
    split <;> exact ⟨_, rfl⟩
  · intro taskUuid minerFid csvFilePath h
    unfold SwanClient.SwanUpdateTaskByUuid
    simp only [h, beq_self_eq_true, if_true]
    split <;> exact ⟨_, rfl⟩
  · intro taskUuid status csvFilePath h
    unfold SwanClient.SwanUpdateAssignedTask
    simp only [h, jsonUnmarshal_empty]
    split <;> exact ⟨_, rfl⟩
  · intro minerFid status limit h
    unfold SwanClient.SwanGetOfflineDeals
    simp only [h, jsonUnmarshal_empty]
  · intro dealId status statusInfo h
    unfold SwanClient.SwanUpdateOfflineDealStatus
    split
    · rfl
    · simp only [h, jsonUnmarshal_empty]
  · intro apiKey accessToken h
    unfold tokenExchange at h
    unfold SwanClient.SwanGetJwtToken
    simp only [goLen_beq_zero, h, decide_True, if_true]
    by_cases hUrl : c.ApiUrl = ""
    · simp [hUrl]
    · by_cases hKey : apiKey = ""
      · simp [hUrl, hKey]
      · by_cases hTok : accessToken = ""
        · simp [hUrl, hKey, hTok]
        · simp [hUrl, hKey, hTok]

/-- C10 at work: a platform that answers 200 with an empty body. -/
theorem C10_empty_body_is_failure_witness :
    (∃ err, (SwanClient.SwanGetTaskByUuid emptyBodyEnv Net.empty ⟨"http://swan", "tok"⟩
      "uuid-1").1 = Except.error err) ∧
    (∃ err, (SwanClient.SwanGetTasks emptyBodyEnv Net.empty ⟨"http://swan", "tok"⟩
      (some 10)).1 = Except.error err) ∧
    (∃ err, (SwanClient.SwanGetAssignedTasksByLimit emptyBodyEnv Net.empty
      ⟨"http://swan", "tok"⟩ none).1 = Except.error err) ∧
    (∃ err, (SwanClient.SwanGetOfflineDealsByTaskUuid emptyBodyEnv Net.empty
      ⟨"http://swan", "tok"⟩ "uuid-1").1 = Except.error err) ∧
    (∃ err, (SwanClient.SwanCreateTask emptyBodyEnv Net.empty ⟨"http://swan", "tok"⟩ demoTask
      "/tmp/task.csv").1 = Outcome.ret (Except.error err)) ∧
    (∃ err, (SwanClient.SwanUpdateTaskByUuid emptyBodyEnv Net.empty ⟨"http://swan", "tok"⟩
      "uuid-1" "f01000" "/tmp/task.csv").1 = some err) ∧
    (∃ err, (SwanClient.SwanUpdateAssignedTask emptyBodyEnv Net.empty ⟨"http://swan", "tok"⟩
      "uuid-1" "DealSent" "/tmp/task.csv").1 = Except.error err) ∧
    (SwanClient.SwanGetOfflineDeals emptyBodyEnv Net.empty ⟨"http://swan", "tok"⟩
      "f01000" "Created" ["10"]).1 = none ∧
    (SwanClient.SwanUpdateOfflineDealStatus emptyBodyEnv Net.empty ⟨"http://swan", "tok"⟩
      7 "Completed" ["ok"]).1 = false ∧
    (∃ err, (SwanClient.SwanGetJwtToken emptyBodyEnv Net.empty ⟨"http://swan", ""⟩
      "key" "secret").1 = Outcome.ret (⟨"http://swan", ""⟩, some err)) :=
  ⟨(C10_empty_body_is_failure emptyBodyEnv Net.empty ⟨"http://swan", "tok"⟩).1 "uuid-1" rfl,
   (C10_empty_body_is_failure emptyBodyEnv Net.empty ⟨"http://swan", "tok"⟩).2.1
      (some 10) rfl,
   (C10_empty_body_is_failure emptyBodyEnv Net.empty ⟨"http://swan", "tok"⟩).2.2.1 none rfl,
   (C10_empty_body_is_failure emptyBodyEnv Net.empty ⟨"http://swan", "tok"⟩).2.2.2.1
      "uuid-1" rfl,
   (C10_empty_body_is_failure emptyBodyEnv Net.empty ⟨"http://swan", "tok"⟩).2.2.2.2.1
      demoTask "/tmp/task.csv" _ rfl rfl,
   (C10_empty_body_is_failure emptyBodyEnv Net.empty ⟨"http://swan", "tok"⟩).2.2.2.2.2.1
      "uuid-1" "f01000" "/tmp/task.csv" rfl,
   (C10_empty_body_is_failure emptyBodyEnv Net.empty ⟨"http://swan", "tok"⟩).2.2.2.2.2.2.1
      "uuid-1" "DealSent" "/tmp/task.csv" rfl,
   (C10_empty_body_is_failure emptyBodyEnv Net.empty ⟨"http://swan", "tok"⟩).2.2.2.2.2.2.2.1
      "f01000" "Created" ["10"] rfl,
   (C10_empty_body_is_failure emptyBodyEnv Net.empty ⟨"http://swan", "tok"⟩).2.2.2.2.2.2.2.2.1
      7 "Completed" ["ok"] rfl,
   (C10_empty_body_is_failure emptyBodyEnv Net.empty ⟨"http://swan", ""⟩).2.2.2.2.2.2.2.2.2
      "key" "secret" rfl⟩

/-! ## C11: validation before any network call -/

/-- C11. If the base URL, the apiKey or the accessToken is empty, SwanGetJwtToken returns
a non-nil error and SwanGetClientByKey returns a non-nil error and no client, and the
history of transport calls and of requests is left as it was: no network call is made. -/
theorem C11_validation_before_network (env : Env) (net : Net) :
    (∀ (c : SwanClient) (apiKey accessToken : String),
      c.ApiUrl = "" ∨ apiKey = "" ∨ accessToken = "" →
      (∃ err, c.SwanGetJwtToken env net apiKey accessToken = (Outcome.ret (c, some err), net)) ∧
      (c.SwanGetJwtToken env net apiKey accessToken).2.invoked = net.invoked ∧
      (c.SwanGetJwtToken env net apiKey accessToken).2.sent = net.sent) ∧
    (∀ apiUrl apiKey accessToken : String,
      apiUrl = "" ∨ apiKey = "" ∨ accessToken = "" →
      (∃ err, SwanGetClientByKey env net apiUrl apiKey accessToken
        = (Outcome.ret (Except.error err), net)) ∧
      (SwanGetClientByKey env net apiUrl apiKey accessToken).2.invoked = net.invoked ∧
      (SwanGetClientByKey env net apiUrl apiKey accessToken).2.sent = net.sent) := by
  constructor
  · intro c apiKey accessToken h
    have hres : ∃ err, c.SwanGetJwtToken env net apiKey accessToken
        = (Outcome.ret (c, some err), net) := by
      unfold SwanClient.SwanGetJwtToken
      simp only [goLen_beq_zero]
      by_cases hUrl : c.ApiUrl = ""
      · simp [hUrl]
      · by_cases hKey : apiKey = ""
        · simp [hUrl, hKey]
        · by_cases hTok : accessToken = ""
          · simp [hUrl, hKey, hTok]
          · rcases h with h | h | h
            · exact absurd h hUrl
            · exact absurd h hKey
            · exact absurd h hTok
    obtain ⟨err, he⟩ := hres
    rw [he]
    exact ⟨⟨err, rfl⟩, rfl, rfl⟩
  · intro apiUrl apiKey accessToken h
    have hres : ∃ err, SwanGetClientByKey env net apiUrl apiKey accessToken
        = (Outcome.ret (Except.error err), net) := by
      unfold SwanGetClientByKey
      simp only [goLen_beq_zero]
      by_cases hUrl : apiUrl = ""
      · simp [hUrl]
      · by_cases hKey : apiKey = ""
        · simp [hUrl, hKey]
        · by_cases hTok : accessToken = ""
          · simp [hUrl, hKey, hTok]
          · rcases h with h | h | h
            · exact absurd h hUrl
            · exact absurd h hKey
            · exact absurd h hTok
    obtain ⟨err, he⟩ := hres
    rw [he]
    exact ⟨⟨err, rfl⟩, rfl, rfl⟩

/-- C11 at work: an empty access token on a reachable platform, and an empty base URL. -/
theorem C11_validation_before_network_witness :
    ((∃ err, SwanClient.SwanGetJwtToken emptyJwtEnv Net.empty ⟨"http://swan", ""⟩ "key" ""
        = (Outcome.ret (⟨"http://swan", ""⟩, some err), Net.empty)) ∧
      (SwanClient.SwanGetJwtToken emptyJwtEnv Net.empty ⟨"http://swan", ""⟩ "key" "").2.invoked
        = Net.empty.invoked ∧
      (SwanClient.SwanGetJwtToken emptyJwtEnv Net.empty ⟨"http://swan", ""⟩ "key" "").2.sent
        = Net.empty.sent) ∧
    ((∃ err, SwanGetClientByKey emptyJwtEnv Net.empty "" "key" "secret"
        = (Outcome.ret (Except.error err), Net.empty)) ∧
      (SwanGetClientByKey emptyJwtEnv Net.empty "" "key" "secret").2.invoked
        = Net.empty.invoked ∧
      (SwanGetClientByKey emptyJwtEnv Net.empty "" "key" "secret").2.sent = Net.empty.sent) :=
  ⟨(C11_validation_before_network emptyJwtEnv Net.empty).1 ⟨"http://swan", ""⟩ "key" ""
      (Or.inr (Or.inr rfl)),
   (C11_validation_before_network emptyJwtEnv Net.empty).2 "" "key" "secret" (Or.inl rfl)⟩

/-! ## C12: the base URL and the protocol operations -/

/-- A client returned by SwanGetClientByKey has the non-empty base URL it was given. -/
theorem SwanGetClientByKey_ok_url (env : Env) (net : Net) (u k t : String) (c1 : SwanClient)
    (n1 : Net) (h : SwanGetClientByKey env net u k t = (Outcome.ret (Except.ok c1), n1)) :
    u ≠ "" ∧ c1.ApiUrl = u := by
  obtain ⟨_, _, _, _, _, _, hu⟩ := SwanGetClientByKey_ok env net u k t c1 n1 h
  refine ⟨?_, hu⟩
  intro he
  subst he
  unfold SwanGetClientByKey at h
  simp [goLen_beq_zero] at h

/-- C12, as the code has it. The base URL is checked where a client is made: a client
returned by SwanGetClientByKey or SwanGetClient has a non-empty ApiUrl. The protocol
operations do not check it: for every SwanClient value, also one whose ApiUrl is empty,
each of them makes its one transport call, at the URL that is ApiUrl followed by the path
and query of the operation, written out below (SwanUpdateOfflineDealStatus for a non-empty
status, SwanGetOfflineDealsByTaskUuid for a non-empty task uuid, SwanCreateTask for a task
whose pointer fields are set). -/
theorem C12_base_url_checked_at_construction_only (env : Env) (net : Net) :
    (∀ (u k t : String) (c1 : SwanClient) (n1 : Net),
      SwanGetClientByKey env net u k t = (Outcome.ret (Except.ok c1), n1) → c1.ApiUrl ≠ "") ∧
    (∀ (u k t jwtToken : String) (c1 : SwanClient) (n1 : Net),
      SwanGetClient env net u k t jwtToken = (Outcome.ret (Except.ok c1), n1) →
      c1.ApiUrl ≠ "") ∧
    (∀ c : SwanClient,
      (∀ (minerFid status : String) (limit : List String),
        (c.SwanGetOfflineDeals env net minerFid status limit).2.invoked
          = net.invoked ++ [⟨"GET", c.ApiUrl ++ "/offline_deals/" ++ minerFid ++
              "?deal_status=" ++ status ++ "&limit=" ++ limit.headD "50" ++ "&offset=0",
              c.JwtToken, CallArgs.params (Params.value (Payload.str ""))⟩]) ∧
      (∀ (dealId : Int) (status : String) (statusInfo : List String), status ≠ "" →
        (c.SwanUpdateOfflineDealStatus env net dealId status statusInfo).2.invoked
          = net.invoked ++ [⟨"PUT", c.ApiUrl ++ "/my_miner/deals/" ++ strconvItoa dealId,
              c.JwtToken, CallArgs.params (Params.reader
                (SwanClient.updateOfflineDealParams status statusInfo).Encode)⟩]) ∧
      (∀ (task : Task) (csvFilePath : String) (params : List (String × String)),
        SwanClient.createTaskParams task = some params →
        (c.SwanCreateTask env net task csvFilePath).2.invoked
          = net.invoked ++ [⟨"POST", c.ApiUrl ++ "/tasks", c.JwtToken,
              CallArgs.file params "file" csvFilePath⟩]) ∧
      (∀ uuid : String,
        (c.SwanGetTaskByUuid env net uuid).2.invoked
          = net.invoked ++ [⟨"GET", c.ApiUrl ++ "/tasks/" ++ uuid, c.JwtToken,
              CallArgs.params (Params.value (Payload.str ""))⟩]) ∧
      ((c.SwanGetTasks env net none).2.invoked
          = net.invoked ++ [⟨"GET", c.ApiUrl ++ "/tasks", c.JwtToken,
              CallArgs.params (Params.value (Payload.str ""))⟩] ∧
        ∀ limit : Int,
          (c.SwanGetTasks env net (some limit)).2.invoked
            = net.invoked ++ [⟨"GET", c.ApiUrl ++ "/tasks?limit=" ++ strconvItoa limit,
                c.JwtToken, CallArgs.params (Params.value (Payload.str ""))⟩]) ∧
      ((c.SwanGetAssignedTasksByLimit env net none).2.invoked
          = net.invoked ++ [⟨"GET", c.ApiUrl ++ "/tasks?status=Assigned", c.JwtToken,
              CallArgs.params (Params.value (Payload.str ""))⟩] ∧
        ∀ limit : Int,
          (c.SwanGetAssignedTasksByLimit env net (some limit)).2.invoked
            = net.invoked ++ [⟨"GET", c.ApiUrl ++ "/tasks?status=Assigned&limit=" ++
                strconvItoa limit, c.JwtToken,
                CallArgs.params (Params.value (Payload.str ""))⟩]) ∧
      (∀ taskUuid : String, taskUuid ≠ "" →
        (c.SwanGetOfflineDealsByTaskUuid env net taskUuid).2.invoked
          = net.invoked ++ [⟨"GET", c.ApiUrl ++ "/tasks/" ++ taskUuid, c.JwtToken,
              CallArgs.params (Params.value (Payload.str ""))⟩]) ∧
      (∀ taskUuid minerFid csvFilePath : String,
        (c.SwanUpdateTaskByUuid env net taskUuid minerFid csvFilePath).2.invoked
          = net.invoked ++ [⟨"PUT", c.ApiUrl ++ "/uuid_tasks/" ++ taskUuid, c.JwtToken,
              CallArgs.file (mapSet [] "miner_fid" minerFid) "file" csvFilePath⟩]) ∧
      (∀ taskUuid status csvFilePath : String,
        (c.SwanUpdateAssignedTask env net taskUuid status csvFilePath).2.invoked
          = net.invoked ++ [⟨"PUT", c.ApiUrl ++ "/tasks/" ++ taskUuid, c.JwtToken,
              CallArgs.file (mapSet [] "status" status) "file" csvFilePath⟩])) := by
  refine ⟨?_, ?_, ?_⟩
  · intro u k t c1 n1 h
    obtain ⟨hu, hc⟩ := SwanGetClientByKey_ok_url env net u k t c1 n1 h
    rw [hc]
    exact hu
  · intro u k t jwtToken c1 n1 h
    unfold SwanGetClient at h
    simp only [goLen_beq_zero, EMPTY_STRING, beq_iff_eq] at h
    by_cases hUrl : u = ""
    · simp [hUrl] at h
    · simp only [hUrl, decide_False, Bool.false_eq_true, if_false] at h
      by_cases hj : jwtToken = ""
      · simp only [hj, if_true] at h
        obtain ⟨hu, hc⟩ := SwanGetClientByKey_ok_url env net u k t c1 n1 h
        rw [hc]
        exact hu
      · simp only [hj, if_false, Prod.mk.injEq, Outcome.ret.injEq, Except.ok.injEq] at h
        obtain ⟨hc, -⟩ := h
        subst hc
        exact hUrl
  · intro c
    refine ⟨?_, ?_, ?_, ?_, ?_, ?_, ?_, ?_, ?_⟩
    · intro minerFid status limit
      have h : (c.SwanGetOfflineDeals env net minerFid status limit).2
          = (HttpGet env net (c.offlineDealsUrl minerFid status limit) c.JwtToken
              (Params.value (Payload.str ""))).2 := by
        unfold SwanClient.SwanGetOfflineDeals
        simp only
        split
        · rfl
        · split <;> rfl
      rw [h, ← offlineDealsUrl_eq]
      exact httpRequest_invoked _ _ _ _ _ _
    · intro dealId status statusInfo hst
      rw [SwanUpdateOfflineDealStatus_net env net c dealId status statusInfo hst]
      exact httpRequest_invoked _ _ _ _ _ _
    · intro task csvFilePath params hp
      have h : (c.SwanCreateTask env net task csvFilePath).2
          = (HttpPostFile env net (c.ApiUrl ++ "/tasks") c.JwtToken params "file"
              csvFilePath).2 := by
        unfold SwanClient.SwanCreateTask
        simp only [hp]
        split
        · rfl
        · split
          · rfl
          · split <;> rfl
      rw [h]
      exact HttpRequestFile_invoked _ _ _ _ _ _ _ _
    · intro uuid
      have h : (c.SwanGetTaskByUuid env net uuid).2
          = (HttpGet env net (c.ApiUrl ++ "/tasks/" ++ uuid) c.JwtToken
              (Params.value (Payload.str ""))).2 := by
        unfold SwanClient.SwanGetTaskByUuid
        simp only
        split
        · rfl
        · split
          · rfl
          · split <;> rfl
      rw [h]
      exact httpRequest_invoked _ _ _ _ _ _
    · have h : ∀ limit : Option Int, (c.SwanGetTasks env net limit).2
          = (HttpGet env net (c.tasksUrl limit) c.JwtToken
              (Params.value (Payload.str ""))).2 := by
        intro limit
        unfold SwanClient.SwanGetTasks
        simp only
        split
        · rfl
        · split
          · rfl
          · split <;> rfl
      constructor
      · rw [h, ← tasksUrl_none]
        exact httpRequest_invoked _ _ _ _ _ _
      · intro limit
        rw [h, ← tasksUrl_some]
        exact httpRequest_invoked _ _ _ _ _ _
    · constructor
      · rw [SwanGetAssignedTasksByLimit_net, ← assignedTasksUrl_none]
        exact httpRequest_invoked _ _ _ _ _ _
      · intro limit
        rw [SwanGetAssignedTasksByLimit_net, ← assignedTasksUrl_some]
        exact httpRequest_invoked _ _ _ _ _ _
    · intro taskUuid hu
      have h : (c.SwanGetOfflineDealsByTaskUuid env net taskUuid).2
          = (HttpGet env net (c.ApiUrl ++ "/tasks/" ++ taskUuid) c.JwtToken
              (Params.value (Payload.str ""))).2 := by
        unfold SwanClient.SwanGetOfflineDealsByTaskUuid
        simp only [goLen_beq_zero, hu, decide_False, Bool.false_eq_true, if_false]
        split
        · rfl
        · split
          · rfl
          · split <;> rfl
      rw [h]
      exact httpRequest_invoked _ _ _ _ _ _
    · intro taskUuid minerFid csvFilePath
      have h : (c.SwanUpdateTaskByUuid env net taskUuid minerFid csvFilePath).2
          = (HttpPutFile env net (c.ApiUrl ++ "/uuid_tasks/" ++ taskUuid) c.JwtToken
              (mapSet [] "miner_fid" minerFid) "file" csvFilePath).2 := by
        unfold SwanClient.SwanUpdateTaskByUuid
        simp only
        split
        · rfl
        · split
          · rfl
          · split <;> rfl
      rw [h]
      exact HttpRequestFile_invoked _ _ _ _ _ _ _ _
    · intro taskUuid status csvFilePath
      have h : (c.SwanUpdateAssignedTask env net taskUuid status csvFilePath).2
          = (HttpPutFile env net (c.ApiUrl ++ "/tasks/" ++ taskUuid) c.JwtToken
              (mapSet [] "status" status) "file" csvFilePath).2 := by
        unfold SwanClient.SwanUpdateAssignedTask
        simp only
        split
        · rfl
        · split
          · rfl
          · split <;> rfl
      rw [h]
      exact HttpRequestFile_invoked _ _ _ _ _ _ _ _

/-- C12 at work: the client made by SwanGetClientByKey has a base URL; a client value with
an empty ApiUrl makes SwanUpdateOfflineDealStatus and SwanGetOfflineDealsByTaskUuid call
the transport at the bare path; with the base URL "http://swan", SwanGetTasks and
SwanGetOfflineDeals call it at that base followed by the path. -/
theorem C12_base_url_checked_at_construction_only_witness :
    (SwanClient.mk "http://swan" "tok").ApiUrl ≠ "" ∧
    (SwanClient.SwanUpdateOfflineDealStatus noSchemeEnv Net.empty ⟨"", "tok"⟩ 7 "Completed"
        []).2.invoked
      = Net.empty.invoked ++ [⟨"PUT", (SwanClient.mk "" "tok").ApiUrl ++ "/my_miner/deals/" ++
          strconvItoa 7, (SwanClient.mk "" "tok").JwtToken, CallArgs.params (Params.reader
            (SwanClient.updateOfflineDealParams "Completed" []).Encode)⟩] ∧
    (SwanClient.SwanGetOfflineDealsByTaskUuid noSchemeEnv Net.empty ⟨"", "tok"⟩
        "uuid-1").2.invoked
      = Net.empty.invoked ++ [⟨"GET", (SwanClient.mk "" "tok").ApiUrl ++ "/tasks/" ++ "uuid-1",
          (SwanClient.mk "" "tok").JwtToken,
          CallArgs.params (Params.value (Payload.str ""))⟩] ∧
    (SwanClient.SwanGetTasks noSchemeEnv Net.empty ⟨"http://swan", "tok"⟩ (some 10)).2.invoked
      = Net.empty.invoked ++ [⟨"GET", (SwanClient.mk "http://swan" "tok").ApiUrl ++
          "/tasks?limit=" ++ strconvItoa 10, (SwanClient.mk "http://swan" "tok").JwtToken,
          CallArgs.params (Params.value (Payload.str ""))⟩] ∧
    (SwanClient.SwanGetOfflineDeals noSchemeEnv Net.empty ⟨"http://swan", "tok"⟩ "f01000"
        "Created" ["10"]).2.invoked
      = Net.empty.invoked ++ [⟨"GET", (SwanClient.mk "http://swan" "tok").ApiUrl ++
          "/offline_deals/" ++ "f01000" ++ "?deal_status=" ++ "Created" ++ "&limit=" ++
          ["10"].headD "50" ++ "&offset=0", (SwanClient.mk "http://swan" "tok").JwtToken,
          CallArgs.params (Params.value (Payload.str ""))⟩] :=
  ⟨(C12_base_url_checked_at_construction_only secondTryEnv Net.empty).1
      "http://swan" "key" "secret" ⟨"http://swan", "tok"⟩ _ rfl,
   ((C12_base_url_checked_at_construction_only noSchemeEnv Net.empty).2.2
      ⟨"", "tok"⟩).2.1 7 "Completed" [] (by decide),
   ((C12_base_url_checked_at_construction_only noSchemeEnv Net.empty).2.2
      ⟨"", "tok"⟩).2.2.2.2.2.2.1 "uuid-1" (by decide),
   (((C12_base_url_checked_at_construction_only noSchemeEnv Net.empty).2.2
      ⟨"http://swan", "tok"⟩).2.2.2.2.1).2 10,
   ((C12_base_url_checked_at_construction_only noSchemeEnv Net.empty).2.2
      ⟨"http://swan", "tok"⟩).1 "f01000" "Created" ["10"]⟩

/-- C12 fails as stated: on a client whose ApiUrl is the empty string, SwanGetTasks and
SwanGetOfflineDeals call the transport, which builds a request for the bare path and
hands it to client.Do. -/
theorem C12_counterexample_empty_base_url :
    (SwanClient.mk "" "tok").ApiUrl = "" ∧
    (SwanClient.SwanGetTasks noSchemeEnv Net.empty ⟨"", "tok"⟩ none).2
      = ⟨[⟨"GET", "/tasks", "tok", CallArgs.params (Params.value (Payload.str ""))⟩],
         [⟨"GET", "/tasks",
           [("Authorization", "Bearer tok"), ("Content-Type", "application/json; charset=utf-8")],
           Body.text "\"\""⟩]⟩ ∧
    (SwanClient.SwanGetOfflineDeals noSchemeEnv Net.empty ⟨"", "tok"⟩ "f01000" "Created"
        []).2.invoked
      = [⟨"GET", "/offline_deals/f01000?deal_status=Created&limit=50&offset=0", "tok",
          CallArgs.params (Params.value (Payload.str ""))⟩] :=
  ⟨rfl, rfl, rfl⟩

/-! ## C13: the error after three failed attempts -/

/-- C13, as the code has it. When all three token exchanges fail, the error returned by
SwanGetClientByKey is the fixed error "failed to connect to swan platform after trying 3
times", made by fmt.Errorf without a wrapped cause: it is the same whatever the errors of
the three attempts were, and nothing is reachable from it by unwrapping. -/
theorem C13_exhaustion_error_is_fixed (env : Env) (net : Net)
    (apiUrl apiKey accessToken : String)
    (hUrl : apiUrl ≠ "") (hKey : apiKey ≠ "") (hTok : accessToken ≠ "")
    (c1 c2 c3 : SwanClient) (e1 e2 e3 : GoError) (n1 n2 n3 : Net)
    (h1 : SwanClient.SwanGetJwtToken env net ⟨apiUrl, ""⟩ apiKey accessToken
      = (Outcome.ret (c1, some e1), n1))
    (h2 : c1.SwanGetJwtToken env n1 apiKey accessToken = (Outcome.ret (c2, some e2), n2))
    (h3 : c2.SwanGetJwtToken env n2 apiKey accessToken = (Outcome.ret (c3, some e3), n3)) :
    ∃ err, SwanGetClientByKey env net apiUrl apiKey accessToken
        = (Outcome.ret (Except.error err), n3) ∧
      err.msg = "failed to connect to swan platform after trying 3 times" ∧
      err.causes = [] := by
  refine ⟨fmtErrorf "failed to connect to swan platform after trying 3 times", ?_, rfl, rfl⟩
  unfold SwanGetClientByKey
  simp only [goLen_beq_zero, hUrl, hKey, hTok, decide_False, Bool.false_eq_true, if_false]
  simp only [SwanGetClientByKey.loop, h1, h2, h3]

/-- C13 at work: three refused connections. -/
theorem C13_exhaustion_error_is_fixed_witness :
    ∃ err, SwanGetClientByKey deadEnv Net.empty "http://swan" "key" "secret"
        = (Outcome.ret (Except.error err),
            (tokenExchange deadEnv (tokenExchange deadEnv (tokenExchange deadEnv Net.empty
              "http://swan" "key" "secret").2 "http://swan" "key" "secret").2
              "http://swan" "key" "secret").2) ∧
      err.msg = "failed to connect to swan platform after trying 3 times" ∧
      err.causes = [] :=
  C13_exhaustion_error_is_fixed deadEnv Net.empty "http://swan" "key" "secret"
    (by decide) (by decide) (by decide)
    ⟨"http://swan", ""⟩ ⟨"http://swan", ""⟩ ⟨"http://swan", ""⟩
    (fmtErrorf "no response from swan platform:http://swan/user/api_keys/jwt")
    (fmtErrorf "no response from swan platform:http://swan/user/api_keys/jwt")
    (fmtErrorf "no response from swan platform:http://swan/user/api_keys/jwt")
    _ _ _ rfl rfl rfl

/-- C13 fails as stated: in one run the third attempt fails for want of a response, in
the other on a "fail" answer of the platform; the two causes differ, yet SwanGetClientByKey
returns the same error in both runs, and that error wraps nothing. -/
theorem C13_counterexample_causes_not_kept :
    (SwanClient.SwanGetJwtToken deadEnv
        (tokenExchange deadEnv (tokenExchange deadEnv Net.empty
          "http://swan" "key" "secret").2 "http://swan" "key" "secret").2
        ⟨"http://swan", ""⟩ "key" "secret").1
      = Outcome.ret (⟨"http://swan", ""⟩,
          some (fmtErrorf "no response from swan platform:http://swan/user/api_keys/jwt")) ∧
    (SwanClient.SwanGetJwtToken failBodyEnv
        (tokenExchange failBodyEnv (tokenExchange failBodyEnv Net.empty
          "http://swan" "key" "secret").2 "http://swan" "key" "secret").2
        ⟨"http://swan", ""⟩ "key" "secret").1
      = Outcome.ret (⟨"http://swan", ""⟩,
          some (fmtErrorf "status:fail,message:api_key Not found")) ∧
    fmtErrorf "no response from swan platform:http://swan/user/api_keys/jwt"
      ≠ fmtErrorf "status:fail,message:api_key Not found" ∧
    (SwanGetClientByKey deadEnv Net.empty "http://swan" "key" "secret").1
      = Outcome.ret (Except.error
          (fmtErrorf "failed to connect to swan platform after trying 3 times")) ∧
    (SwanGetClientByKey failBodyEnv Net.empty "http://swan" "key" "secret").1
      = Outcome.ret (Except.error
          (fmtErrorf "failed to connect to swan platform after trying 3 times")) ∧
    (fmtErrorf "failed to connect to swan platform after trying 3 times").causes = [] :=
  ⟨rfl, rfl, by decide, rfl, rfl, rfl⟩

/-! ## C14: the two requests of SwanGetAssignedTasks -/

/-- The one transport call of SwanGetAssignedTasksByLimit. -/
theorem SwanGetAssignedTasksByLimit_invoked (env : Env) (net : Net) (c : SwanClient)
    (limit : Option Int) :
    (c.SwanGetAssignedTasksByLimit env net limit).2.invoked
      = net.invoked ++ [⟨"GET", c.assignedTasksUrl limit, c.JwtToken,
          CallArgs.params (Params.value (Payload.str ""))⟩] := by
  rw [SwanGetAssignedTasksByLimit_net]
  exact httpRequest_invoked _ _ _ _ _ _

/-- After a first answer with a non-empty task list, the history of SwanGetAssignedTasks
is that of the second SwanGetAssignedTasksByLimit, asked with the total as limit. -/
theorem SwanGetAssignedTasks_net_second (env : Env) (net : Net) (c : SwanClient)
    (r1 : GetTaskResult) (n1 : Net)
    (h1 : c.SwanGetAssignedTasksByLimit env net none = (Except.ok r1, n1))
    (hne : r1.Data.Task.len ≠ 0) :
    (c.SwanGetAssignedTasks env net).2
      = (c.SwanGetAssignedTasksByLimit env n1 (some r1.Data.TotalTaskCount)).2 := by
  unfold SwanClient.SwanGetAssignedTasks
  simp only [h1, beq_iff_eq, hne, if_false]
  rcases h2 : c.SwanGetAssignedTasksByLimit env n1 (some r1.Data.TotalTaskCount) with ⟨res, n2⟩
  cases res with
  | error e => rfl
  | ok r2 =>
    simp only
    split <;> rfl

/-- C14. The first transport call of SwanGetAssignedTasks is a GET of ApiUrl followed by
"/tasks?status=Assigned", without a limit. When it is answered successfully with a
non-empty task list and the total n, exactly one more call is made, a GET of ApiUrl
followed by "/tasks?status=Assigned&limit=" and the decimal form of n, and the one request
the first call handed to client.Do is followed by at most one more, at that URL. When it
is answered successfully with an empty task list, no second call is made and the result is
the nil task list with a nil error. -/
theorem C14_assigned_tasks_requests (env : Env) (net : Net) (c : SwanClient) :
    (∃ rest, (c.SwanGetAssignedTasks env net).2.invoked
      = net.invoked ++ (⟨"GET", c.ApiUrl ++ "/tasks?status=Assigned", c.JwtToken,
          CallArgs.params (Params.value (Payload.str ""))⟩ :: rest)) ∧
    (∀ (r1 : GetTaskResult) (n1 : Net),
      c.SwanGetAssignedTasksByLimit env net none = (Except.ok r1, n1) →
      r1.Data.Task.len ≠ 0 →
      (c.SwanGetAssignedTasks env net).2.invoked
        = net.invoked ++
          [⟨"GET", c.ApiUrl ++ "/tasks?status=Assigned", c.JwtToken,
              CallArgs.params (Params.value (Payload.str ""))⟩,
           ⟨"GET", c.ApiUrl ++ "/tasks?status=Assigned&limit=" ++
              strconvItoa r1.Data.TotalTaskCount, c.JwtToken,
              CallArgs.params (Params.value (Payload.str ""))⟩] ∧
      ∃ req1, n1.sent = net.sent ++ [req1] ∧
        req1.Method = "GET" ∧ req1.URL = c.ApiUrl ++ "/tasks?status=Assigned" ∧
        ((c.SwanGetAssignedTasks env net).2.sent = net.sent ++ [req1] ∨
          ∃ req2, (c.SwanGetAssignedTasks env net).2.sent = net.sent ++ [req1, req2] ∧
            req2.Method = "GET" ∧
            req2.URL = c.ApiUrl ++ "/tasks?status=Assigned&limit=" ++
              strconvItoa r1.Data.TotalTaskCount)) ∧
    (∀ (r1 : GetTaskResult) (n1 : Net),
      c.SwanGetAssignedTasksByLimit env net none = (Except.ok r1, n1) →
      r1.Data.Task.len = 0 →
      c.SwanGetAssignedTasks env net = (Except.ok none, n1) ∧
      Slice.len (none : Slice Task) = 0 ∧
      n1.invoked = net.invoked ++ [⟨"GET", c.ApiUrl ++ "/tasks?status=Assigned", c.JwtToken,
          CallArgs.params (Params.value (Payload.str ""))⟩] ∧
      ∃ req1, n1.sent = net.sent ++ [req1] ∧
        req1.Method = "GET" ∧ req1.URL = c.ApiUrl ++ "/tasks?status=Assigned") := by
  have hfirst := SwanGetAssignedTasksByLimit_invoked env net c none
  have hsent1 : ∀ (r1 : GetTaskResult) (n1 : Net),
      c.SwanGetAssignedTasksByLimit env net none = (Except.ok r1, n1) →
      ∃ req1, n1.sent = net.sent ++ [req1] ∧
        req1.Method = "GET" ∧ req1.URL = c.ApiUrl ++ "/tasks?status=Assigned" := by
    intro r1 n1 h1
    have hresp := SwanGetAssignedTasksByLimit_ok_response env net c none r1 (by rw [h1])
    have hnet := SwanGetAssignedTasksByLimit_net env net c none
    rw [h1] at hnet
    obtain ⟨req, hs, hm, hu⟩ := httpRequest_nonempty_sent env net "GET" _ _ _ hresp
    refine ⟨req, ?_, hm, hu⟩
    have : n1 = (HttpGet env net (c.assignedTasksUrl none) c.JwtToken
        (Params.value (Payload.str ""))).2 := hnet
    rw [this]
    exact hs
  refine ⟨?_, ?_, ?_⟩
  · rcases h1 : c.SwanGetAssignedTasksByLimit env net none with ⟨res, n1⟩
    rw [h1] at hfirst
    cases res with
    | error e =>
      refine ⟨[], ?_⟩
      unfold SwanClient.SwanGetAssignedTasks
      simp only [h1]
      exact hfirst
    | ok r1 =>
      by_cases hlen : r1.Data.Task.len = 0
      · refine ⟨[], ?_⟩
        unfold SwanClient.SwanGetAssignedTasks
        simp only [h1, beq_iff_eq, hlen, if_true]
        exact hfirst
      · refine ⟨[⟨"GET", c.assignedTasksUrl (some r1.Data.TotalTaskCount), c.JwtToken,
            CallArgs.params (Params.value (Payload.str ""))⟩], ?_⟩
        rw [SwanGetAssignedTasks_net_second env net c r1 n1 h1 hlen,
          SwanGetAssignedTasksByLimit_invoked, hfirst, assignedTasksUrl_none]
        simp
  · intro r1 n1 h1 hne
    rw [h1] at hfirst
    constructor
    · rw [SwanGetAssignedTasks_net_second env net c r1 n1 h1 hne,
        SwanGetAssignedTasksByLimit_invoked, hfirst, assignedTasksUrl_none,
        assignedTasksUrl_some]
      simp
    · obtain ⟨req1, hs1, hm1, hu1⟩ := hsent1 r1 n1 h1
      refine ⟨req1, hs1, hm1, hu1, ?_⟩
      rw [SwanGetAssignedTasks_net_second env net c r1 n1 h1 hne,
        SwanGetAssignedTasksByLimit_net]
      rcases httpRequest_sent_url env n1 "GET"
          (c.assignedTasksUrl (some r1.Data.TotalTaskCount)) c.JwtToken
          (Params.value (Payload.str "")) with h0 | ⟨req2, hs2, hm2, hu2⟩
      · left
        unfold HttpGet
        rw [h0, hs1]
      · right
        refine ⟨req2, ?_, hm2, hu2.trans (assignedTasksUrl_some c _)⟩
        unfold HttpGet
        rw [hs2, hs1]
        simp
  · intro r1 n1 h1 hlen
    rw [h1] at hfirst
    refine ⟨?_, rfl, hfirst, hsent1 r1 n1 h1⟩
    unfold SwanClient.SwanGetAssignedTasks
    simp only [h1, beq_iff_eq, hlen, if_true]

/-- C14 at work: with seven tasks on the platform the second call asks for limit=7; with
none, there is one call and the nil list comes back. -/
theorem C14_assigned_tasks_requests_witness :
    ((SwanClient.SwanGetAssignedTasks assignedEnv Net.empty ⟨"http://swan", "tok"⟩).2.invoked
        = Net.empty.invoked ++
          [⟨"GET", (SwanClient.mk "http://swan" "tok").ApiUrl ++ "/tasks?status=Assigned",
              (SwanClient.mk "http://swan" "tok").JwtToken,
              CallArgs.params (Params.value (Payload.str ""))⟩,
           ⟨"GET", (SwanClient.mk "http://swan" "tok").ApiUrl ++
              "/tasks?status=Assigned&limit=" ++
              strconvItoa (GetTaskResult.mk ⟨some (sevenTasks.take 2), 2, 7⟩
                "success").Data.TotalTaskCount,
              (SwanClient.mk "http://swan" "tok").JwtToken,
              CallArgs.params (Params.value (Payload.str ""))⟩] ∧
      ∃ req1,
        (SwanClient.SwanGetAssignedTasksByLimit assignedEnv Net.empty ⟨"http://swan", "tok"⟩
          none).2.sent = Net.empty.sent ++ [req1] ∧
        req1.Method = "GET" ∧
        req1.URL = (SwanClient.mk "http://swan" "tok").ApiUrl ++ "/tasks?status=Assigned" ∧
        ((SwanClient.SwanGetAssignedTasks assignedEnv Net.empty ⟨"http://swan", "tok"⟩).2.sent
            = Net.empty.sent ++ [req1] ∨
          ∃ req2,
            (SwanClient.SwanGetAssignedTasks assignedEnv Net.empty ⟨"http://swan", "tok"⟩).2.sent
              = Net.empty.sent ++ [req1, req2] ∧
            req2.Method = "GET" ∧
            req2.URL = (SwanClient.mk "http://swan" "tok").ApiUrl ++
              "/tasks?status=Assigned&limit=" ++
              strconvItoa (GetTaskResult.mk ⟨some (sevenTasks.take 2), 2, 7⟩
                "success").Data.TotalTaskCount)) ∧
    (SwanClient.SwanGetAssignedTasks noTasksEnv Net.empty ⟨"http://swan", "tok"⟩
        = (Except.ok none,
            (SwanClient.SwanGetAssignedTasksByLimit noTasksEnv Net.empty ⟨"http://swan", "tok"⟩
              none).2) ∧
      Slice.len (none : Slice Task) = 0 ∧
      (SwanClient.SwanGetAssignedTasksByLimit noTasksEnv Net.empty ⟨"http://swan", "tok"⟩
          none).2.invoked
        = Net.empty.invoked ++
          [⟨"GET", (SwanClient.mk "http://swan" "tok").ApiUrl ++ "/tasks?status=Assigned",
              (SwanClient.mk "http://swan" "tok").JwtToken,
              CallArgs.params (Params.value (Payload.str ""))⟩] ∧
      ∃ req1,
        (SwanClient.SwanGetAssignedTasksByLimit noTasksEnv Net.empty ⟨"http://swan", "tok"⟩
          none).2.sent = Net.empty.sent ++ [req1] ∧
        req1.Method = "GET" ∧
        req1.URL = (SwanClient.mk "http://swan" "tok").ApiUrl ++ "/tasks?status=Assigned") :=
  ⟨(C14_assigned_tasks_requests assignedEnv Net.empty ⟨"http://swan", "tok"⟩).2.1
      ⟨⟨some (sevenTasks.take 2), 2, 7⟩, "success"⟩ _ rfl (by decide),
   (C14_assigned_tasks_requests noTasksEnv Net.empty ⟨"http://swan", "tok"⟩).2.2
      ⟨⟨some [], 0, 0⟩, "success"⟩ _ rfl rfl⟩

/-- The seven-task run evaluated: the two URLs asked for, in order. -/
theorem SwanGetAssignedTasks_seven_tasks_urls :
    (SwanClient.SwanGetAssignedTasks assignedEnv Net.empty
        ⟨"http://swan", "tok"⟩).2.invoked.map (fun call => call.uri)
      = ["http://swan/tasks?status=Assigned", "http://swan/tasks?status=Assigned&limit=7"] ∧
    (SwanClient.SwanGetAssignedTasks assignedEnv Net.empty
        ⟨"http://swan", "tok"⟩).2.sent.map (fun req => req.URL)
      = ["http://swan/tasks?status=Assigned", "http://swan/tasks?status=Assigned&limit=7"] := by
  exact ⟨rfl, rfl⟩

end SwanLib
